import Mathlib

/-!
Verification of the metrics report builder
(`chrome/browser/metrics/metrics_log.cc`).

The development below is a shallow embedding of `MetricsLog` and its helper
functions.  Machine integers (`int`, `int64`) are modelled as `Int` (none of
the verified paths can overflow a 64-bit quantity, and all pref counters are
small), strings as `String`, and the two output encodings as explicit data:

* the legacy attribute-tree encoding is modelled as the ordered list of
  write events (`XmlEvent`) produced by the `MetricsLogBase` sink
  (`WriteAttribute`/`WriteIntAttribute`/`WriteInt64Attribute` and the
  `ScopedElement` open/close pairs emitted by `OPEN_ELEMENT_FOR_SCOPE`);
* the structured encoding is modelled as a record mirroring
  `SystemProfileProto` / `OmniboxEventProto`; an optional proto field is an
  `Option`, whose `some` corresponds to the field having been `set_`.

`PrefService` (`local_state`) is modelled as a record with one field per
pref key read or written by this file; a key that was never set holds `0`
(`GetInteger` semantics).  The process-wide static
`last_updated_time` of `GetIncrementalUptime` is threaded explicitly, as an
`Option Int` that is `none` before the first call (the C++ static is
initialized to `now` on first execution).  Time is in seconds.

Assertion modelling: a `DCHECK` precondition at the entry of a public
record operation (`DCHECK(!locked())`) is modelled as the operation failing
with `BuildFault.programmingFault` before touching any state (assertion
semantics: nothing after the failed check executes).  A `NOTREACHED()` that
the source follows with an explicit recovery path (`continue;` / `break;`)
is modelled as incrementing the `faults` counter of the log state and then
taking that recovery path, which is the behaviour the source itself encodes
for the case where the assertion does not stop execution.
-/

/-- Event of the legacy attribute-tree sink.  `openElement`/`closeElement`
are the `ScopedElement` constructor/destructor of `OPEN_ELEMENT_FOR_SCOPE`;
the three attribute constructors are `WriteAttribute`, `WriteIntAttribute`
and `WriteInt64Attribute`. -/
inductive XmlEvent where
  | openElement (name : String)
  | closeElement (name : String)
  | attr (name : String) (value : String)
  | intAttr (name : String) (value : Int)
  | int64Attr (name : String) (value : Int)
deriving DecidableEq

/-- Entry of `webkit::WebPluginInfo`: a currently-installed plugin
descriptor (name, path, version). -/
structure WebPluginInfo where
  name : String
  path : String
  version : String
deriving DecidableEq

/-- `PluginPrefs::IsPluginEnabled`, abstracted: the per-profile enabled
predicate over installed plugins.  `GetPluginPrefs()` can return null (no
loaded profile), hence users take an `Option PluginPrefs`. -/
abbrev PluginPrefs := WebPluginInfo → Bool

/-- `SystemProfileProto::Plugin` (fields set by `SetPluginInfo`). -/
structure PluginProto where
  name : String
  filename : String
  version : String
  is_disabled : Option Bool
deriving DecidableEq

/-- `SystemProfileProto::Stability::PluginStability`. -/
structure PluginStabilityProto where
  plugin : PluginProto
  launch_count : Int
  instance_count : Int
  crash_count : Int
deriving DecidableEq

/-- `SystemProfileProto::Stability`.  Every scalar field is optional in the
proto; `some` models the field having been written by a `set_` call. -/
structure StabilityProto where
  launch_count : Option Int := none
  crash_count : Option Int := none
  incomplete_shutdown_count : Option Int := none
  breakpad_registration_success_count : Option Int := none
  breakpad_registration_failure_count : Option Int := none
  debugger_present_count : Option Int := none
  debugger_not_present_count : Option Int := none
  page_load_count : Option Int := none
  renderer_crash_count : Option Int := none
  extension_renderer_crash_count : Option Int := none
  renderer_hang_count : Option Int := none
  child_process_crash_count : Option Int := none
  other_user_crash_count : Option Int := none
  kernel_crash_count : Option Int := none
  unclean_system_shutdown_count : Option Int := none
  uptime_sec : Option Int := none
  plugin_stability : List PluginStabilityProto := []
deriving DecidableEq

/-- `SystemProfileProto::Hardware::Graphics`. -/
structure GraphicsProto where
  vendor_id : Option Int := none
  device_id : Option Int := none
  driver_version : Option String := none
  driver_date : Option String := none
  graphics_score : Option Int := none
  gaming_score : Option Int := none
  overall_score : Option Int := none
deriving DecidableEq

/-- `SystemProfileProto::Hardware`. -/
structure HardwareProto where
  cpu_architecture : Option String := none
  system_ram_mb : Option Int := none
  gpu : GraphicsProto := {}
  primary_screen_width : Option Int := none
  primary_screen_height : Option Int := none
  screen_count : Option Int := none
deriving DecidableEq

/-- `SystemProfileProto::OS`. -/
structure OSProto where
  name : Option String := none
  version : Option String := none
deriving DecidableEq

/-- `SystemProfileProto::FieldTrial` (name/group ids are uint32). -/
structure FieldTrialProto where
  name_id : Nat
  group_id : Nat
deriving DecidableEq

/-- `SystemProfileProto` (the parts populated by this file). -/
structure SystemProfileProto where
  install_date : Option Int := none
  application_locale : Option String := none
  hardware : HardwareProto := {}
  os : OSProto := {}
  stability : StabilityProto := {}
  plugin : List PluginProto := []
  field_trial : List FieldTrialProto := []
deriving DecidableEq

/-- Persisted per-plugin usage record: one dictionary of the
`kStabilityPluginStats` list pref, read with `GetString`/`GetInteger`
(missing keys default to `""`/`0`). -/
structure PluginUsageRecord where
  name : String
  launches : Int
  instances : Int
  crashes : Int
deriving DecidableEq

/-- Value of the `kStabilityPluginStats` list: the source checks
`IsType(Value::TYPE_DICTIONARY)` on each element, so an element is either a
usable dictionary or some other value kind. -/
inductive StatsValue where
  | dict (d : PluginUsageRecord)
  | other
deriving DecidableEq

/-- `PrefService` (`local_state`) restricted to the keys this file touches.
Integer prefs that were never set read as `0`. -/
structure PrefState where
  installDate : String := "0"
  uninstallMetricsUptimeSec : Int := 0
  stabilityLaunchCount : Int := 0
  stabilityCrashCount : Int := 0
  stabilityPageLoadCount : Int := 0
  stabilityRendererCrashCount : Int := 0
  stabilityExtensionRendererCrashCount : Int := 0
  stabilityRendererHangCount : Int := 0
  stabilityChildProcessCrashCount : Int := 0
  stabilityOtherUserCrashCount : Int := 0
  stabilityKernelCrashCount : Int := 0
  stabilitySystemUncleanShutdownCount : Int := 0
  stabilityIncompleteSessionEndCount : Int := 0
  stabilityBreakpadRegistrationSuccess : Int := 0
  stabilityBreakpadRegistrationFail : Int := 0
  stabilityDebuggerPresent : Int := 0
  stabilityDebuggerNotPresent : Int := 0
  numBookmarksOnBookmarkBar : Int := 0
  numFoldersOnBookmarkBar : Int := 0
  numBookmarksInOtherBookmarkFolder : Int := 0
  numFoldersInOtherBookmarkFolder : Int := 0
  numKeywords : Int := 0
  pluginStats : Option (List StatsValue) := none
deriving DecidableEq

/-- Typed value of a per-profile metrics dictionary
(`base::Value` restricted to the types the `switch` in
`WriteProfileMetrics` distinguishes; `other` covers the `default` arm). -/
inductive PrefValue where
  | str (s : String)
  | boolean (b : Bool)
  | int (i : Int)
  | other
deriving DecidableEq

/-- `OmniboxEventProto::InputType` (and `AutocompleteInput::Type`, which it
mirrors one-to-one through `AsOmniboxEventInputType`). -/
inductive OmniboxInputType where
  | invalid
  | unknown
  | requestedUrl
  | url
  | query
  | forcedQuery
deriving DecidableEq

/-- `OmniboxEventProto::Suggestion::ProviderType`. -/
inductive SuggestionProviderType where
  | unknownProvider
  | url
  | historyContents
  | historyQuick
  | search
  | keyword
  | builtin
  | shortcuts
  | extensionApps
deriving DecidableEq

/-- `AutocompleteMatch::Type` (the cases the conversion distinguishes;
`otherType` covers the `default` arm). -/
inductive AutocompleteMatchType where
  | urlWhatYouTyped
  | historyUrl
  | historyTitle
  | historyBody
  | historyKeyword
  | navsuggest
  | searchWhatYouTyped
  | searchHistory
  | searchSuggest
  | searchOtherEngine
  | extensionApp
  | otherType
deriving DecidableEq

/-- `OmniboxEventProto::Suggestion::ResultType`. -/
inductive SuggestionResultType where
  | unknownResultType
  | urlWhatYouTyped
  | historyUrl
  | historyTitle
  | historyBody
  | historyKeyword
  | navsuggest
  | searchWhatYouTyped
  | searchHistory
  | searchSuggest
  | searchOtherEngine
  | extensionApp
deriving DecidableEq

/-- `OmniboxEventProto::Suggestion`. -/
structure SuggestionProto where
  provider : SuggestionProviderType
  result_type : SuggestionResultType
  relevance : Int
  is_starred : Bool
deriving DecidableEq

/-- `OmniboxEventProto` (the fields `RecordOmniboxOpenedURL` writes). -/
structure OmniboxEventProto where
  time : Int
  tab_id : Option Int := none
  typed_length : Nat
  num_typed_terms : Nat
  selected_index : Int
  completed_length : Int
  typing_duration_ms : Option Int := none
  input_type : OmniboxInputType
  suggestion : List SuggestionProto := []
deriving DecidableEq

/-- One suggestion of `AutocompleteLog::result`. -/
structure AutocompleteMatchEntry where
  providerName : Option String
  matchType : AutocompleteMatchType
  relevance : Int
  starred : Bool
deriving DecidableEq

/-- `AutocompleteLog` (the fields `RecordOmniboxOpenedURL` reads).
`elapsedMs` keeps the source's `-1` sentinel for "typing duration unset". -/
structure AutocompleteLog where
  text : String
  inputType : OmniboxInputType
  tabId : Int := -1
  selectedIndex : Int := 0
  inlineAutocompletedLength : Int := 0
  elapsedMs : Int := -1
  result : List AutocompleteMatchEntry := []
deriving DecidableEq

/-- Complete mutable state of one in-progress `MetricsLog` together with
the collaborator state it reads and writes: the legacy event stream, the
structured record (`uma_proto`), the event counter (`num_events_`), the
assertion-fault counter (count of `NOTREACHED()` signals taken on a
recovery path), the pref store, and the process-wide uptime checkpoint. -/
structure LogState where
  locked : Bool := false
  xml : List XmlEvent := []
  systemProfile : SystemProfileProto := {}
  omniboxEvents : List OmniboxEventProto := []
  numEvents : Int := 0
  faults : Nat := 0
  prefs : PrefState := {}
  lastUpdated : Option Int := none
deriving DecidableEq

/-- Fault raised by a failed `DCHECK` precondition of a public record
operation (spec taxonomy: ProgrammingFault). -/
inductive BuildFault where
  | programmingFault
deriving DecidableEq

/-- `MetricsLogBase::WriteAttribute` (legacy sink: append a string
attribute under the currently open element). -/
def writeAttribute (name value : String) (s : LogState) : LogState :=
  { s with xml := s.xml ++ [.attr name value] }

/-- `MetricsLogBase::WriteIntAttribute`. -/
def writeIntAttribute (name : String) (value : Int) (s : LogState) : LogState :=
  { s with xml := s.xml ++ [.intAttr name value] }

/-- `MetricsLogBase::WriteInt64Attribute`. -/
def writeInt64Attribute (name : String) (value : Int) (s : LogState) : LogState :=
  { s with xml := s.xml ++ [.int64Attr name value] }

/-- `ScopedElement` construction: `OPEN_ELEMENT_FOR_SCOPE(name)` opens the
element on entry to the scope. -/
def openScope (name : String) (s : LogState) : LogState :=
  { s with xml := s.xml ++ [.openElement name] }

/-- `ScopedElement` destruction: the matching close emitted on every exit
path of the scope. -/
def closeScope (name : String) (s : LogState) : LogState :=
  { s with xml := s.xml ++ [.closeElement name] }

/-- Update of the cached `stability` message
(`uma_proto()->mutable_system_profile()->mutable_stability()`). -/
def setStab (s : LogState) (f : StabilityProto → StabilityProto) : LogState :=
  { s with systemProfile :=
      { s.systemProfile with stability := f s.systemProfile.stability } }

/-- Modelled from the spec: `MetricsLogBase::CreateHashes` (the Anonymizer)
is not under `src/`; per the spec it is a deterministic one-way transform of
an identifying string into a stable token that tolerates empty input.  It is
modelled as a deterministic injective tagging whose output always differs
from its input (the one-way aspect of the real MD5/base64 construction is
not representable or needed here). -/
def createHash (s : String) : String :=
  "b64:" ++ s

/-- `FilePath::BaseName().AsUTF8Unsafe()`: final path component. -/
def baseName (p : String) : String :=
  (p.splitOn "/").getLastD p

/-- `SetPluginInfo` (`metrics_log.cc`): fills a `SystemProfileProto::Plugin`
from a `WebPluginInfo`, setting `is_disabled` only when `plugin_prefs` is
non-null.  Note that `set_name` receives the plugin's raw name. -/
def setPluginInfo (info : WebPluginInfo) (pp : Option PluginPrefs) : PluginProto :=
  { name := info.name
  , filename := baseName info.path
  , version := info.version
  , is_disabled := pp.map fun isEnabled => ! isEnabled info }

/-- `MetricsLog::GetIncrementalUptime`: returns the seconds elapsed since
the previous call (0 on the first call, whose static checkpoint initializes
to `now`), adds them to the `kUninstallMetricsUptimeSec` pref when positive,
and moves the checkpoint to `now`.  Result: (elapsed seconds, new pref
state, new checkpoint). -/
def getIncrementalUptime (now : Int) (p : PrefState) (lastUpdatedTime : Option Int) :
    Int × PrefState × Option Int :=
  let last := lastUpdatedTime.getD now
  let incrementalTime := now - last
  let p :=
    if incrementalTime > 0 then
      { p with uninstallMetricsUptimeSec := p.uninstallMetricsUptimeSec + incrementalTime }
    else p
  (incrementalTime, p, some now)

/-- `MetricsLog::WriteRequiredStabilityAttributes`: read-and-reset
`kStabilityLaunchCount` and `kStabilityCrashCount`, then write both to the
legacy sink and to the proto unconditionally (the server treats them as
required even when zero). -/
def writeRequiredStabilityAttributes (s : LogState) : LogState :=
  let launchCount := s.prefs.stabilityLaunchCount
  let s := { s with prefs := { s.prefs with stabilityLaunchCount := 0 } }
  let crashCount := s.prefs.stabilityCrashCount
  let s := { s with prefs := { s.prefs with stabilityCrashCount := 0 } }
  let s := writeIntAttribute "launchcount" launchCount s
  let s := writeIntAttribute "crashcount" crashCount s
  setStab s fun st => { st with launch_count := some launchCount, crash_count := some crashCount }

/-- `WriteRealtimeStabilityAttributes`, page-load block: if
`kStabilityPageLoadCount` is non-zero, write the legacy attribute, set the
proto field and reset the pref; otherwise do nothing. -/
def realtimePageLoadStep (s : LogState) : LogState :=
  let count := s.prefs.stabilityPageLoadCount
  if count ≠ 0 then
    let s := writeIntAttribute "pageloadcount" count s
    let s := setStab s fun st => { st with page_load_count := some count }
    { s with prefs := { s.prefs with stabilityPageLoadCount := 0 } }
  else s

/-- `WriteRealtimeStabilityAttributes`, renderer-crash block. -/
def realtimeRendererCrashStep (s : LogState) : LogState :=
  let count := s.prefs.stabilityRendererCrashCount
  if count ≠ 0 then
    let s := writeIntAttribute "renderercrashcount" count s
    let s := setStab s fun st => { st with renderer_crash_count := some count }
    { s with prefs := { s.prefs with stabilityRendererCrashCount := 0 } }
  else s

/-- `WriteRealtimeStabilityAttributes`, extension-renderer-crash block. -/
def realtimeExtensionRendererCrashStep (s : LogState) : LogState :=
  let count := s.prefs.stabilityExtensionRendererCrashCount
  if count ≠ 0 then
    let s := writeIntAttribute "extensionrenderercrashcount" count s
    let s := setStab s fun st => { st with extension_renderer_crash_count := some count }
    { s with prefs := { s.prefs with stabilityExtensionRendererCrashCount := 0 } }
  else s

/-- `WriteRealtimeStabilityAttributes`, renderer-hang block. -/
def realtimeRendererHangStep (s : LogState) : LogState :=
  let count := s.prefs.stabilityRendererHangCount
  if count ≠ 0 then
    let s := writeIntAttribute "rendererhangcount" count s
    let s := setStab s fun st => { st with renderer_hang_count := some count }
    { s with prefs := { s.prefs with stabilityRendererHangCount := 0 } }
  else s

/-- `WriteRealtimeStabilityAttributes`, child-process-crash block. -/
def realtimeChildProcessCrashStep (s : LogState) : LogState :=
  let count := s.prefs.stabilityChildProcessCrashCount
  if count ≠ 0 then
    let s := writeIntAttribute "childprocesscrashcount" count s
    let s := setStab s fun st => { st with child_process_crash_count := some count }
    { s with prefs := { s.prefs with stabilityChildProcessCrashCount := 0 } }
  else s

/-- `WriteRealtimeStabilityAttributes`, `OS_CHROMEOS` other-user-crash
block: the source sets only the proto field (there is no legacy
`WriteIntAttribute` in this block). -/
def realtimeOtherUserCrashStep (s : LogState) : LogState :=
  let count := s.prefs.stabilityOtherUserCrashCount
  if count ≠ 0 then
    let s := setStab s fun st => { st with other_user_crash_count := some count }
    { s with prefs := { s.prefs with stabilityOtherUserCrashCount := 0 } }
  else s

/-- `WriteRealtimeStabilityAttributes`, `OS_CHROMEOS` kernel-crash block
(proto only, like the other-user-crash block). -/
def realtimeKernelCrashStep (s : LogState) : LogState :=
  let count := s.prefs.stabilityKernelCrashCount
  if count ≠ 0 then
    let s := setStab s fun st => { st with kernel_crash_count := some count }
    { s with prefs := { s.prefs with stabilityKernelCrashCount := 0 } }
  else s

/-- `WriteRealtimeStabilityAttributes`, `OS_CHROMEOS` unclean-shutdown
block (proto only). -/
def realtimeUncleanShutdownStep (s : LogState) : LogState :=
  let count := s.prefs.stabilitySystemUncleanShutdownCount
  if count ≠ 0 then
    let s := setStab s fun st => { st with unclean_system_shutdown_count := some count }
    { s with prefs := { s.prefs with stabilitySystemUncleanShutdownCount := 0 } }
  else s

/-- `WriteRealtimeStabilityAttributes`, uptime block: call
`GetIncrementalUptime` (with its pref and checkpoint side effects) and
write `uptimesec` to both sinks when the elapsed value is non-zero. -/
def realtimeUptimeStep (now : Int) (s : LogState) : LogState :=
  let r := getIncrementalUptime now s.prefs s.lastUpdated
  let s := { s with prefs := r.2.1, lastUpdated := r.2.2 }
  if r.1 ≠ 0 then
    let s := writeInt64Attribute "uptimesec" r.1 s
    setStab s fun st => { st with uptime_sec := some r.1 }
  else s

/-- `MetricsLog::WriteRealtimeStabilityAttributes`: the per-counter blocks
in source order; the three ChromeOS blocks are compiled in only under
`OS_CHROMEOS`, modelled by the `isChromeOS` flag. -/
def writeRealtimeStabilityAttributes (isChromeOS : Bool) (now : Int) (s : LogState) : LogState :=
  let s := realtimePageLoadStep s
  let s := realtimeRendererCrashStep s
  let s := realtimeExtensionRendererCrashStep s
  let s := realtimeRendererHangStep s
  let s := realtimeChildProcessCrashStep s
  let s :=
    if isChromeOS then
      realtimeUncleanShutdownStep (realtimeKernelCrashStep (realtimeOtherUserCrashStep s))
    else s
  realtimeUptimeStep now s

/-- Stability snapshot as both call sites sequence it
(`WriteStabilityElement` and `RecordIncrementalStabilityElements`):
required attributes first, then the realtime attributes. -/
def stabilitySnapshot (isChromeOS : Bool) (now : Int) (s : LogState) : LogState :=
  writeRealtimeStabilityAttributes isChromeOS now (writeRequiredStabilityAttributes s)

/-- `PluginPrefs::GetForProfile` lookup result threaded into the functions
that call the file-local `GetPluginPrefs()`. -/
abbrev PluginPrefsHandle := Option PluginPrefs

/-- Body of the loop of `WritePluginStabilityElements` for one element of
the persisted `kStabilityPluginStats` list: a non-dictionary value is a
`NOTREACHED(); continue;`; a dictionary is written to the legacy sink
unconditionally (inside its own `pluginstability` scope, whose close runs
on every exit of the iteration), then correlated against `plugin_list`
(first name match wins); on a miss, `NOTREACHED(); continue;`; on a hit,
the proto `PluginStability` entry is appended. -/
def processStatsValue (inv : List WebPluginInfo) (pp : PluginPrefsHandle)
    (s : LogState) (v : StatsValue) : LogState :=
  match v with
  | .other => { s with faults := s.faults + 1 }
  | .dict d =>
    let s := openScope "pluginstability" s
    let s := writeAttribute "filename" (createHash d.name) s
    let s := writeIntAttribute "launchcount" d.launches s
    let s := writeIntAttribute "instancecount" d.instances s
    let s := writeIntAttribute "crashcount" d.crashes s
    match inv.find? (fun info => info.name == d.name) with
    | none => closeScope "pluginstability" { s with faults := s.faults + 1 }
    | some info =>
      let s := setStab s fun st =>
        { st with plugin_stability := st.plugin_stability ++
            [{ plugin := setPluginInfo info pp
             , launch_count := d.launches
             , instance_count := d.instances
             , crash_count := d.crashes }] }
      closeScope "pluginstability" s

/-- `MetricsLog::WritePluginStabilityElements`: return immediately when the
`kStabilityPluginStats` list pref is absent; otherwise open the `plugins`
scope, process every persisted record, clear the whole pref, and close the
scope. -/
def writePluginStabilityElements (inv : List WebPluginInfo) (pp : PluginPrefsHandle)
    (s : LogState) : LogState :=
  match s.prefs.pluginStats with
  | none => s
  | some vs =>
    let s := openScope "plugins" s
    let s := vs.foldl (processStatsValue inv pp) s
    let s := { s with prefs := { s.prefs with pluginStats := none } }
    closeScope "plugins" s

/-- `MetricsLog::WriteStabilityElement`: required and realtime attributes,
then the five optional counters (read-and-reset, then legacy writes, then
proto writes), then the plugin stability records, all inside the
`stability` scope.  The `DCHECK(!locked())` at its entry is subsumed by the
guard of the public operation that calls it (`locked` cannot change during
a build). -/
def writeStabilityElement (inv : List WebPluginInfo) (pp : PluginPrefsHandle)
    (isChromeOS : Bool) (now : Int) (s : LogState) : LogState :=
  let s := openScope "stability" s
  let s := writeRequiredStabilityAttributes s
  let s := writeRealtimeStabilityAttributes isChromeOS now s
  let incompleteShutdownCount := s.prefs.stabilityIncompleteSessionEndCount
  let s := { s with prefs := { s.prefs with stabilityIncompleteSessionEndCount := 0 } }
  let breakpadRegistrationSuccessCount := s.prefs.stabilityBreakpadRegistrationSuccess
  let s := { s with prefs := { s.prefs with stabilityBreakpadRegistrationSuccess := 0 } }
  let breakpadRegistrationFailureCount := s.prefs.stabilityBreakpadRegistrationFail
  let s := { s with prefs := { s.prefs with stabilityBreakpadRegistrationFail := 0 } }
  let debuggerPresentCount := s.prefs.stabilityDebuggerPresent
  let s := { s with prefs := { s.prefs with stabilityDebuggerPresent := 0 } }
  let debuggerNotPresentCount := s.prefs.stabilityDebuggerNotPresent
  let s := { s with prefs := { s.prefs with stabilityDebuggerNotPresent := 0 } }
  let s := writeIntAttribute "incompleteshutdowncount" incompleteShutdownCount s
  let s := writeIntAttribute "breakpadregistrationok" breakpadRegistrationSuccessCount s
  let s := writeIntAttribute "breakpadregistrationfail" breakpadRegistrationFailureCount s
  let s := writeIntAttribute "debuggerpresent" debuggerPresentCount s
  let s := writeIntAttribute "debuggernotpresent" debuggerNotPresentCount s
  let s := setStab s fun st =>
    { st with incomplete_shutdown_count := some incompleteShutdownCount
            , breakpad_registration_success_count := some breakpadRegistrationSuccessCount
            , breakpad_registration_failure_count := some breakpadRegistrationFailureCount
            , debugger_present_count := some debuggerPresentCount
            , debugger_not_present_count := some debuggerNotPresentCount }
  let s := writePluginStabilityElements inv pp s
  closeScope "stability" s

/-- `MetricsLog::WritePluginList`: inside a `plugins` scope, one pass over
the inventory; in XML mode each plugin becomes a `plugin` element with
hashed name and filename, raw version, and a `disabled` flag when the
plugin prefs are available; in proto mode each plugin is appended to the
system profile via `SetPluginInfo`.  The `DCHECK(!locked())` at its entry
is subsumed by the public operation's guard. -/
def writePluginList (inv : List WebPluginInfo) (pp : PluginPrefsHandle)
    (writeAsXml : Bool) (s : LogState) : LogState :=
  let s := openScope "plugins" s
  let s := inv.foldl (fun st info =>
    if writeAsXml then
      let st := openScope "plugin" st
      let st := writeAttribute "name" (createHash info.name) st
      let st := writeAttribute "filename" (createHash (baseName info.path)) st
      let st := writeAttribute "version" info.version st
      let st :=
        match pp with
        | none => st
        | some isEnabled =>
          writeIntAttribute "disabled" (if isEnabled info then 0 else 1) st
      closeScope "plugin" st
    else
      { st with systemProfile :=
          { st.systemProfile with
              plugin := st.systemProfile.plugin ++ [setPluginInfo info pp] } }) s
  closeScope "plugins" s

/-- `MetricsLog::WriteInstallElement`: `install` scope with the install
date string (`GetInstallDate` reads `kMetricsClientIDTimestamp`) and a
zero `buildid`. -/
def writeInstallElement (s : LogState) : LogState :=
  let s := openScope "install" s
  let s := writeAttribute "installdate" s.prefs.installDate s
  let s := writeIntAttribute "buildid" 0 s
  closeScope "install" s

/-- Modelled from the spec: `MetricsLogBase::WriteCommonEventAttributes` is
base-class code not under `src/`; it stamps per-event bookkeeping
attributes that none of the claims mention, so it is modelled as writing
nothing. -/
def writeCommonEventAttributes (s : LogState) : LogState := s

/-- One iteration of the metric loop of `WriteProfileMetrics`: the
`DCHECK(*i != "id")` is an in-loop assertion whose failure the source falls
through (the value is still written), modelled as a recorded fault; then
the `switch` on the value type writes a `profileparam` element for
string/bool/int values, and hits `NOTREACHED(); break;` (a recorded fault,
loop continues) for any other type. -/
def writeProfileEntry (key : String) (v : PrefValue) (s : LogState) : LogState :=
  let s := if key == "id" then { s with faults := s.faults + 1 } else s
  match v with
  | .str sv =>
    let s := openScope "profileparam" s
    let s := writeAttribute "name" key s
    let s := writeAttribute "value" sv s
    closeScope "profileparam" s
  | .boolean b =>
    let s := openScope "profileparam" s
    let s := writeAttribute "name" key s
    let s := writeIntAttribute "value" (if b then 1 else 0) s
    closeScope "profileparam" s
  | .int i =>
    let s := openScope "profileparam" s
    let s := writeAttribute "name" key s
    let s := writeIntAttribute "value" i s
    closeScope "profileparam" s
  | .other => { s with faults := s.faults + 1 }

/-- `MetricsLog::WriteProfileMetrics`: a `userprofile` scope carrying the
profile id hash and one `profileparam` element per recognized metric. -/
def writeProfileMetrics (profileidhash : String)
    (metrics : List (String × PrefValue)) (s : LogState) : LogState :=
  let s := openScope "userprofile" s
  let s := writeAttribute "profileidhash" profileidhash s
  let s := metrics.foldl (fun st kv => writeProfileEntry kv.1 kv.2 st) s
  closeScope "userprofile" s

/-- Modelled from the spec: the per-profile key marker
(`prefs::kProfilePrefix`, defined outside `src/`) that
`WriteAllProfilesMetrics` strips from matching dictionary keys. -/
def profileKeyMarker : String := "profile."

/-- `MetricsLog::WriteAllProfilesMetrics`: write the metrics of every
sub-dictionary whose key carries the per-profile marker. -/
def writeAllProfilesMetrics (allProfilesMetrics : List (String × List (String × PrefValue)))
    (s : LogState) : LogState :=
  allProfilesMetrics.foldl (fun st kv =>
    if kv.1.startsWith profileKeyMarker then
      writeProfileMetrics (kv.1.drop profileKeyMarker.length) kv.2 st
    else st) s

/-- Environment facts obtained synchronously from collaborators
(`base::SysInfo`, `GpuDataManager`, `gfx::Screen`, the content client, and
`base::FieldTrialList`); they are inputs of `RecordEnvironment`. -/
structure EnvFacts where
  cpuArch : String := ""
  memoryMB : Int := 0
  osName : String := ""
  osVersion : String := ""
  appLocale : String := ""
  gpuVendorId : Int := 0
  gpuDeviceId : Int := 0
  gpuDriverVersion : String := ""
  gpuDriverDate : String := ""
  gpuGraphicsScore : Int := 0
  gpuGamingScore : Int := 0
  gpuOverallScore : Int := 0
  displayWidth : Int := 0
  displayHeight : Int := 0
  screenCount : Int := 0
  fieldTrials : List (Nat × Nat) := []
deriving DecidableEq

/-- `MetricsLog::RecordEnvironmentProto`: populate the structured system
profile (install date parsed from the pref string with a `DCHECK` on
success, locale, hardware, OS, GPU, display), then the proto plugin list
and the field trials. -/
def recordEnvironmentProto (inv : List WebPluginInfo) (pp : PluginPrefsHandle)
    (facts : EnvFacts) (s : LogState) : LogState :=
  let parsed := s.prefs.installDate.toInt?
  let s := match parsed with | some _ => s | none => { s with faults := s.faults + 1 }
  let s := { s with systemProfile :=
    { s.systemProfile with
        install_date := some (parsed.getD 0)
      , application_locale := some facts.appLocale
      , hardware :=
        { s.systemProfile.hardware with
            cpu_architecture := some facts.cpuArch
          , system_ram_mb := some facts.memoryMB
          , gpu :=
            { vendor_id := some facts.gpuVendorId
            , device_id := some facts.gpuDeviceId
            , driver_version := some facts.gpuDriverVersion
            , driver_date := some facts.gpuDriverDate
            , graphics_score := some facts.gpuGraphicsScore
            , gaming_score := some facts.gpuGamingScore
            , overall_score := some facts.gpuOverallScore }
          , primary_screen_width := some facts.displayWidth
          , primary_screen_height := some facts.displayHeight
          , screen_count := some facts.screenCount }
      , os := { name := some facts.osName, version := some facts.osVersion } } }
  let s := writePluginList inv pp false s
  { s with systemProfile :=
      { s.systemProfile with
          field_trial := s.systemProfile.field_trial ++
            facts.fieldTrials.map fun ng => { name_id := ng.1, group_id := ng.2 } } }

/-- `MetricsLog::RecordEnvironment`: guarded by `DCHECK(!locked())`; writes
the legacy environment sections in source order, then the structured
equivalent via `RecordEnvironmentProto`. -/
def recordEnvironment (inv : List WebPluginInfo) (pp : PluginPrefsHandle)
    (profileMetrics : Option (List (String × List (String × PrefValue))))
    (facts : EnvFacts) (isChromeOS : Bool) (now : Int) (s : LogState) :
    Except BuildFault LogState :=
  if s.locked then .error .programmingFault else
  let s := openScope "profile" s
  let s := writeCommonEventAttributes s
  let s := writeInstallElement s
  let s := writePluginList inv pp true s
  let s := writeStabilityElement inv pp isChromeOS now s
  let s := closeScope "cpu" (writeAttribute "arch" facts.cpuArch (openScope "cpu" s))
  let s := closeScope "memory" (writeIntAttribute "mb" facts.memoryMB (openScope "memory" s))
  let s := closeScope "os" (writeAttribute "version" facts.osVersion
    (writeAttribute "name" facts.osName (openScope "os" s)))
  let s := closeScope "gpu" (writeIntAttribute "deviceid" facts.gpuDeviceId
    (writeIntAttribute "vendorid" facts.gpuVendorId (openScope "gpu" s)))
  let s := openScope "display" s
  let s := writeIntAttribute "xsize" facts.displayWidth s
  let s := writeIntAttribute "ysize" facts.displayHeight s
  let s := writeIntAttribute "screens" facts.screenCount s
  let s := closeScope "display" s
  let s := openScope "bookmarks" s
  let numBookmarksOnBookmarkBar := s.prefs.numBookmarksOnBookmarkBar
  let numFoldersOnBookmarkBar := s.prefs.numFoldersOnBookmarkBar
  let numBookmarksInOtherBookmarksFolder := s.prefs.numBookmarksInOtherBookmarkFolder
  let numFoldersInOtherBookmarksFolder := s.prefs.numFoldersInOtherBookmarkFolder
  let s := openScope "bookmarklocation" s
  let s := writeAttribute "name" "full-tree" s
  let s := writeIntAttribute "foldercount"
    (numFoldersOnBookmarkBar + numFoldersInOtherBookmarksFolder) s
  let s := writeIntAttribute "itemcount"
    (numBookmarksOnBookmarkBar + numBookmarksInOtherBookmarksFolder) s
  let s := closeScope "bookmarklocation" s
  let s := openScope "bookmarklocation" s
  let s := writeAttribute "name" "toolbar" s
  let s := writeIntAttribute "foldercount" numFoldersOnBookmarkBar s
  let s := writeIntAttribute "itemcount" numBookmarksOnBookmarkBar s
  let s := closeScope "bookmarklocation" s
  let s := closeScope "bookmarks" s
  let s := closeScope "keywords" (writeIntAttribute "count" s.prefs.numKeywords
    (openScope "keywords" s))
  let s := match profileMetrics with
    | none => s
    | some m => writeAllProfilesMetrics m s
  let s := recordEnvironmentProto inv pp facts s
  .ok (closeScope "profile" s)

/-- `MetricsLog::RecordIncrementalStabilityElements`: guarded by
`DCHECK(!locked())`; common attributes, the install element, and a minimal
`stability` section (required + realtime + plugin stability). -/
def recordIncrementalStabilityElements (inv : List WebPluginInfo)
    (pp : PluginPrefsHandle) (isChromeOS : Bool) (now : Int) (s : LogState) :
    Except BuildFault LogState :=
  if s.locked then .error .programmingFault else
  let s := openScope "profile" s
  let s := writeCommonEventAttributes s
  let s := writeInstallElement s
  let s := openScope "stability" s
  let s := writeRequiredStabilityAttributes s
  let s := writeRealtimeStabilityAttributes isChromeOS now s
  let s := writePluginStabilityElements inv pp s
  let s := closeScope "stability" s
  .ok (closeScope "profile" s)

/-- `AsOmniboxEventInputType`: the one-to-one mapping between
`AutocompleteInput::Type` and `OmniboxEventProto::InputType` (both sides
are modelled by the same enumeration). -/
def asOmniboxEventInputType (t : OmniboxInputType) : OmniboxInputType := t

/-- Modelled from the spec: `AutocompleteInput::TypeToString` lives outside
`src/`; it renders the typed-input classification as a short non-empty
string for every valid classification. -/
def inputTypeToString : OmniboxInputType → String
  | .invalid => "invalid"
  | .unknown => "unknown"
  | .requestedUrl => "requested-url"
  | .url => "url"
  | .query => "query"
  | .forcedQuery => "forced-query"

/-- `AsOmniboxEventProviderType`: map a provider name to the proto provider
enumeration; an unknown name is `NOTREACHED()` falling back to
`UNKNOWN_PROVIDER`. -/
def asOmniboxEventProviderType (p : Option String) : SuggestionProviderType :=
  match p with
  | none => .unknownProvider
  | some n =>
    if n == "HistoryURL" then .url
    else if n == "HistoryContents" then .historyContents
    else if n == "HistoryQuickProvider" then .historyQuick
    else if n == "Search" then .search
    else if n == "Keyword" then .keyword
    else if n == "Builtin" then .builtin
    else if n == "ShortcutsProvider" then .shortcuts
    else if n == "ExtensionApps" then .extensionApps
    else .unknownProvider

/-- `AsOmniboxEventResultType`: map a match type to the proto result-type
enumeration; the `default` arm is `NOTREACHED()` falling back to
`UNKNOWN_RESULT_TYPE`. -/
def asOmniboxEventResultType : AutocompleteMatchType → SuggestionResultType
  | .urlWhatYouTyped => .urlWhatYouTyped
  | .historyUrl => .historyUrl
  | .historyTitle => .historyTitle
  | .historyBody => .historyBody
  | .historyKeyword => .historyKeyword
  | .navsuggest => .navsuggest
  | .searchWhatYouTyped => .searchWhatYouTyped
  | .searchHistory => .searchHistory
  | .searchSuggest => .searchSuggest
  | .searchOtherEngine => .searchOtherEngine
  | .extensionApp => .extensionApp
  | .otherType => .unknownResultType

/-- Modelled from the spec: `AutocompleteMatch::TypeToString` lives outside
`src/`; it renders the result-type classification as a short non-empty
string. -/
def matchTypeToString : AutocompleteMatchType → String
  | .urlWhatYouTyped => "url-what-you-typed"
  | .historyUrl => "history-url"
  | .historyTitle => "history-title"
  | .historyBody => "history-body"
  | .historyKeyword => "history-keyword"
  | .navsuggest => "navsuggest"
  | .searchWhatYouTyped => "search-what-you-typed"
  | .searchHistory => "search-history"
  | .searchSuggest => "search-suggest"
  | .searchOtherEngine => "search-other-engine"
  | .extensionApp => "extension-app"
  | .otherType => ""

/-- `Tokenize(log.text, kWhitespaceUTF16, &terms)`: the number of maximal
non-empty whitespace-separated runs of the typed text. -/
def tokenizeCount (text : String) : Nat :=
  ((text.split fun c => c.isWhitespace).filter fun t => t ≠ "").length

/-- `MetricsLog::RecordOmniboxOpenedURL`: guarded by `DCHECK(!locked())`;
writes the legacy `uielement`/`autocomplete` structure, then appends the
structured `OmniboxEventProto`, and finally increments `num_events_`. -/
def recordOmniboxOpenedURL (log : AutocompleteLog) (now : Int) (s : LogState) :
    Except BuildFault LogState :=
  if s.locked then .error .programmingFault else
  let s := openScope "uielement" s
  let s := writeAttribute "action" "autocomplete" s
  let s := writeAttribute "targetidhash" "" s
  let s := writeIntAttribute "window" 0 s
  let s := if log.tabId ≠ -1 then writeIntAttribute "tab" log.tabId s else s
  let s := writeCommonEventAttributes s
  let numTerms := tokenizeCount log.text
  let s := openScope "autocomplete" s
  let s := writeIntAttribute "typedlength" log.text.length s
  let s := writeIntAttribute "numterms" (Int.ofNat numTerms) s
  let s := writeIntAttribute "selectedindex" log.selectedIndex s
  let s := writeIntAttribute "completedlength" log.inlineAutocompletedLength s
  let s := if log.elapsedMs ≠ -1 then writeInt64Attribute "typingduration" log.elapsedMs s else s
  let inputTypeStr := inputTypeToString log.inputType
  let s := if inputTypeStr ≠ "" then writeAttribute "inputtype" inputTypeStr s else s
  let s := log.result.foldl (fun st m =>
    let st := openScope "autocompleteitem" st
    let st := match m.providerName with
      | some n => writeAttribute "provider" n st
      | none => st
    let resultTypeStr := matchTypeToString m.matchType
    let st := if resultTypeStr ≠ "" then writeAttribute "resulttype" resultTypeStr st else st
    let st := writeIntAttribute "relevance" m.relevance st
    let st := writeIntAttribute "isstarred" (if m.starred then 1 else 0) st
    closeScope "autocompleteitem" st) s
  let s := closeScope "autocomplete" s
  let s := closeScope "uielement" s
  let event : OmniboxEventProto :=
    { time := now
    , tab_id := if log.tabId ≠ -1 then some log.tabId else none
    , typed_length := log.text.length
    , num_typed_terms := numTerms
    , selected_index := log.selectedIndex
    , completed_length := log.inlineAutocompletedLength
    , typing_duration_ms := if log.elapsedMs ≠ -1 then some log.elapsedMs else none
    , input_type := asOmniboxEventInputType log.inputType
    , suggestion := log.result.map fun m =>
        { provider := asOmniboxEventProviderType m.providerName
        , result_type := asOmniboxEventResultType m.matchType
        , relevance := m.relevance
        , is_starred := m.starred } }
  let s := { s with omniboxEvents := s.omniboxEvents ++ [event] }
  .ok { s with numEvents := s.numEvents + 1 }

/-- Value of the first legacy int attribute with the given name in an event
stream (decoding query used to compare the two encodings). -/
def xmlIntAttr (xs : List XmlEvent) (n : String) : Option Int :=
  xs.findSome? fun e =>
    match e with
    | .intAttr m v => if m == n then some v else none
    | _ => none

/-- Value of the first legacy int64 attribute with the given name. -/
def xmlInt64Attr (xs : List XmlEvent) (n : String) : Option Int :=
  xs.findSome? fun e =>
    match e with
    | .int64Attr m v => if m == n then some v else none
    | _ => none

/-- Characterization of the correlation loop: the structured
`PluginStability` entry produced for one persisted usage record, if any
(first inventory item with the exact same name wins). -/
def statsEntry (inv : List WebPluginInfo) (pp : PluginPrefsHandle)
    (d : PluginUsageRecord) : Option PluginStabilityProto :=
  (inv.find? fun info => info.name == d.name).map fun info =>
    { plugin := setPluginInfo info pp
    , launch_count := d.launches
    , instance_count := d.instances
    , crash_count := d.crashes }

/-- Structured entries produced by the correlation loop for a persisted
stats list, in order. -/
def statsEntries (inv : List WebPluginInfo) (pp : PluginPrefsHandle) :
    List StatsValue → List PluginStabilityProto
  | [] => []
  | .other :: vs => statsEntries inv pp vs
  | .dict d :: vs =>
    match statsEntry inv pp d with
    | none => statsEntries inv pp vs
    | some e => e :: statsEntries inv pp vs

/-- Number of assertion faults the correlation loop records for a
persisted stats list (non-dictionary values and unmatched records). -/
def statsFaults (inv : List WebPluginInfo) : List StatsValue → Nat
  | [] => 0
  | .other :: vs => 1 + statsFaults inv vs
  | .dict d :: vs =>
    (if (inv.find? fun info => info.name == d.name).isSome then 0 else 1) + statsFaults inv vs

/-- Legacy events the correlation loop emits for a persisted stats list.
Note that this does not depend on the inventory: the legacy element is
written before the inventory is consulted. -/
def statsXml : List StatsValue → List XmlEvent
  | [] => []
  | .other :: vs => statsXml vs
  | .dict d :: vs =>
    [.openElement "pluginstability"
    , .attr "filename" (createHash d.name)
    , .intAttr "launchcount" d.launches
    , .intAttr "instancecount" d.instances
    , .intAttr "crashcount" d.crashes
    , .closeElement "pluginstability"] ++ statsXml vs

/-- State with exactly one more recorded assertion fault. -/
def addFault (s : LogState) : LogState := { s with faults := s.faults + 1 }

/-- Increments applied to the stability counters of the pref store by
outside collaborators between two reports (`CounterStore.increment`). -/
structure StabilityDeltas where
  launch : Int := 0
  crash : Int := 0
  pageLoad : Int := 0
  rendererCrash : Int := 0
  extensionRendererCrash : Int := 0
  rendererHang : Int := 0
  childProcessCrash : Int := 0
  otherUserCrash : Int := 0
  kernelCrash : Int := 0
  uncleanShutdown : Int := 0
deriving DecidableEq

/-- Apply a batch of counter increments to the pref store. -/
def bumpStability (p : PrefState) (d : StabilityDeltas) : PrefState :=
  { p with
    stabilityLaunchCount := p.stabilityLaunchCount + d.launch
  , stabilityCrashCount := p.stabilityCrashCount + d.crash
  , stabilityPageLoadCount := p.stabilityPageLoadCount + d.pageLoad
  , stabilityRendererCrashCount := p.stabilityRendererCrashCount + d.rendererCrash
  , stabilityExtensionRendererCrashCount :=
      p.stabilityExtensionRendererCrashCount + d.extensionRendererCrash
  , stabilityRendererHangCount := p.stabilityRendererHangCount + d.rendererHang
  , stabilityChildProcessCrashCount := p.stabilityChildProcessCrashCount + d.childProcessCrash
  , stabilityOtherUserCrashCount := p.stabilityOtherUserCrashCount + d.otherUserCrash
  , stabilityKernelCrashCount := p.stabilityKernelCrashCount + d.kernelCrash
  , stabilitySystemUncleanShutdownCount :=
      p.stabilitySystemUncleanShutdownCount + d.uncleanShutdown }

/-- Fresh in-progress log over a given pref store and uptime checkpoint
(a newly constructed `MetricsLog` plus its collaborators). -/
def initState (p : PrefState) (lu : Option Int) : LogState :=
  { locked := false, xml := [], systemProfile := {}, omniboxEvents := []
  , numEvents := 0, faults := 0, prefs := p, lastUpdated := lu }

/-- Inventory item of the spec's correlation scenario. -/
def examplePlugin : WebPluginInfo :=
  { name := "Foo", path := "p/Foo.plugin", version := "1.0" }

/-- Persisted usage record matching `examplePlugin`. -/
def exampleRecordFoo : PluginUsageRecord :=
  { name := "Foo", launches := 0, instances := 0, crashes := 2 }

/-- Persisted usage record with no matching inventory item. -/
def exampleRecordBar : PluginUsageRecord :=
  { name := "Bar", launches := 7, instances := 0, crashes := 0 }

/-- Stability snapshot applied to a fresh log over pref store `p` and
uptime checkpoint `lu`. -/
def snapshotOf (isChromeOS : Bool) (now : Int) (p : PrefState) (lu : Option Int) : LogState :=
  stabilitySnapshot isChromeOS now (initState p lu)

/-- Second-period stability snapshot: after the first report consumed the
counters, collaborators apply the increments `d`, and a fresh log takes the
next snapshot over the resulting pref store (sharing the process-wide
uptime checkpoint). -/
def reportB (b : Bool) (now1 now2 : Int) (p : PrefState) (lu : Option Int)
    (d : StabilityDeltas) : LogState :=
  snapshotOf b now2 (bumpStability (snapshotOf b now1 p lu).prefs d)
    (snapshotOf b now1 p lu).lastUpdated

/-- Pref store holding one persisted usage record with no inventory match. -/
def examplePrefsBar : PrefState :=
  { pluginStats := some [StatsValue.dict exampleRecordBar] }

/-- Pref store holding one persisted usage record that matches
`examplePlugin`. -/
def examplePrefsFoo : PrefState :=
  { pluginStats := some [StatsValue.dict exampleRecordFoo] }

/-- Pref store holding a matched record, an unmatched record, and another
matched record, in that order. -/
def examplePrefsThree : PrefState :=
  { pluginStats := some [StatsValue.dict exampleRecordFoo, StatsValue.dict exampleRecordBar,
      StatsValue.dict exampleRecordFoo] }

/-- Pref store holding four persisted records: matched, unmatched, matched,
unmatched, so that a matched record sits strictly between other records. -/
def examplePrefsFour : PrefState :=
  { pluginStats := some [StatsValue.dict exampleRecordFoo, StatsValue.dict exampleRecordBar,
      StatsValue.dict exampleRecordFoo, StatsValue.dict exampleRecordBar] }

/-! ### Characterization lemmas for the stability snapshot -/

theorem writeRequiredStabilityAttributes_eq (s : LogState) :
    writeRequiredStabilityAttributes s =
      { s with
        xml := s.xml ++ [.intAttr "launchcount" s.prefs.stabilityLaunchCount
                        , .intAttr "crashcount" s.prefs.stabilityCrashCount]
      , systemProfile := { s.systemProfile with stability :=
          { s.systemProfile.stability with
              launch_count := some s.prefs.stabilityLaunchCount
            , crash_count := some s.prefs.stabilityCrashCount } }
      , prefs := { s.prefs with stabilityLaunchCount := 0, stabilityCrashCount := 0 } } := by
  simp [writeRequiredStabilityAttributes, writeIntAttribute, setStab]

theorem realtimePageLoadStep_eq (s : LogState) :
    realtimePageLoadStep s =
      { s with
        xml := s.xml ++ (if s.prefs.stabilityPageLoadCount ≠ 0 then
            [.intAttr "pageloadcount" s.prefs.stabilityPageLoadCount] else [])
      , systemProfile := { s.systemProfile with stability :=
          { s.systemProfile.stability with page_load_count :=
              if s.prefs.stabilityPageLoadCount ≠ 0 then some s.prefs.stabilityPageLoadCount
              else s.systemProfile.stability.page_load_count } }
      , prefs := { s.prefs with stabilityPageLoadCount :=
          if s.prefs.stabilityPageLoadCount ≠ 0 then 0 else s.prefs.stabilityPageLoadCount } } := by
  simp only [realtimePageLoadStep, writeIntAttribute, setStab]
  split_ifs <;> simp

theorem realtimeRendererCrashStep_eq (s : LogState) :
    realtimeRendererCrashStep s =
      { s with
        xml := s.xml ++ (if s.prefs.stabilityRendererCrashCount ≠ 0 then
            [.intAttr "renderercrashcount" s.prefs.stabilityRendererCrashCount] else [])
      , systemProfile := { s.systemProfile with stability :=
          { s.systemProfile.stability with renderer_crash_count :=
              if s.prefs.stabilityRendererCrashCount ≠ 0 then some s.prefs.stabilityRendererCrashCount
              else s.systemProfile.stability.renderer_crash_count } }
      , prefs := { s.prefs with stabilityRendererCrashCount :=
          if s.prefs.stabilityRendererCrashCount ≠ 0 then 0 else s.prefs.stabilityRendererCrashCount } } := by
  simp only [realtimeRendererCrashStep, writeIntAttribute, setStab]
  split_ifs <;> simp

theorem realtimeExtensionRendererCrashStep_eq (s : LogState) :
    realtimeExtensionRendererCrashStep s =
      { s with
        xml := s.xml ++ (if s.prefs.stabilityExtensionRendererCrashCount ≠ 0 then
            [.intAttr "extensionrenderercrashcount" s.prefs.stabilityExtensionRendererCrashCount] else [])
      , systemProfile := { s.systemProfile with stability :=
          { s.systemProfile.stability with extension_renderer_crash_count :=
              if s.prefs.stabilityExtensionRendererCrashCount ≠ 0 then some s.prefs.stabilityExtensionRendererCrashCount
              else s.systemProfile.stability.extension_renderer_crash_count } }
      , prefs := { s.prefs with stabilityExtensionRendererCrashCount :=
          if s.prefs.stabilityExtensionRendererCrashCount ≠ 0 then 0 else s.prefs.stabilityExtensionRendererCrashCount } } := by
  simp only [realtimeExtensionRendererCrashStep, writeIntAttribute, setStab]
  split_ifs <;> simp

theorem realtimeRendererHangStep_eq (s : LogState) :
    realtimeRendererHangStep s =
      { s with
        xml := s.xml ++ (if s.prefs.stabilityRendererHangCount ≠ 0 then
            [.intAttr "rendererhangcount" s.prefs.stabilityRendererHangCount] else [])
      , systemProfile := { s.systemProfile with stability :=
          { s.systemProfile.stability with renderer_hang_count :=
              if s.prefs.stabilityRendererHangCount ≠ 0 then some s.prefs.stabilityRendererHangCount
              else s.systemProfile.stability.renderer_hang_count } }
      , prefs := { s.prefs with stabilityRendererHangCount :=
          if s.prefs.stabilityRendererHangCount ≠ 0 then 0 else s.prefs.stabilityRendererHangCount } } := by
  simp only [realtimeRendererHangStep, writeIntAttribute, setStab]
  split_ifs <;> simp

theorem realtimeChildProcessCrashStep_eq (s : LogState) :
    realtimeChildProcessCrashStep s =
      { s with
        xml := s.xml ++ (if s.prefs.stabilityChildProcessCrashCount ≠ 0 then
            [.intAttr "childprocesscrashcount" s.prefs.stabilityChildProcessCrashCount] else [])
      , systemProfile := { s.systemProfile with stability :=
          { s.systemProfile.stability with child_process_crash_count :=
              if s.prefs.stabilityChildProcessCrashCount ≠ 0 then some s.prefs.stabilityChildProcessCrashCount
              else s.systemProfile.stability.child_process_crash_count } }
      , prefs := { s.prefs with stabilityChildProcessCrashCount :=
          if s.prefs.stabilityChildProcessCrashCount ≠ 0 then 0 else s.prefs.stabilityChildProcessCrashCount } } := by
  simp only [realtimeChildProcessCrashStep, writeIntAttribute, setStab]
  split_ifs <;> simp

theorem realtimeOtherUserCrashStep_eq (s : LogState) :
    realtimeOtherUserCrashStep s =
      { s with
        systemProfile := { s.systemProfile with stability :=
          { s.systemProfile.stability with other_user_crash_count :=
              if s.prefs.stabilityOtherUserCrashCount ≠ 0 then some s.prefs.stabilityOtherUserCrashCount
              else s.systemProfile.stability.other_user_crash_count } }
      , prefs := { s.prefs with stabilityOtherUserCrashCount :=
          if s.prefs.stabilityOtherUserCrashCount ≠ 0 then 0 else s.prefs.stabilityOtherUserCrashCount } } := by
  simp only [realtimeOtherUserCrashStep, writeIntAttribute, setStab]
  split_ifs <;> simp

theorem realtimeKernelCrashStep_eq (s : LogState) :
    realtimeKernelCrashStep s =
      { s with
        systemProfile := { s.systemProfile with stability :=
          { s.systemProfile.stability with kernel_crash_count :=
              if s.prefs.stabilityKernelCrashCount ≠ 0 then some s.prefs.stabilityKernelCrashCount
              else s.systemProfile.stability.kernel_crash_count } }
      , prefs := { s.prefs with stabilityKernelCrashCount :=
          if s.prefs.stabilityKernelCrashCount ≠ 0 then 0 else s.prefs.stabilityKernelCrashCount } } := by
  simp only [realtimeKernelCrashStep, writeIntAttribute, setStab]
  split_ifs <;> simp

theorem realtimeUncleanShutdownStep_eq (s : LogState) :
    realtimeUncleanShutdownStep s =
      { s with
        systemProfile := { s.systemProfile with stability :=
          { s.systemProfile.stability with unclean_system_shutdown_count :=
              if s.prefs.stabilitySystemUncleanShutdownCount ≠ 0 then some s.prefs.stabilitySystemUncleanShutdownCount
              else s.systemProfile.stability.unclean_system_shutdown_count } }
      , prefs := { s.prefs with stabilitySystemUncleanShutdownCount :=
          if s.prefs.stabilitySystemUncleanShutdownCount ≠ 0 then 0 else s.prefs.stabilitySystemUncleanShutdownCount } } := by
  simp only [realtimeUncleanShutdownStep, writeIntAttribute, setStab]
  split_ifs <;> simp

theorem realtimeUptimeStep_eq (now : Int) (s : LogState) :
    realtimeUptimeStep now s =
      { s with
        xml := s.xml ++ (if now - (s.lastUpdated.getD now) ≠ 0 then
            [.int64Attr "uptimesec" (now - (s.lastUpdated.getD now))] else [])
      , systemProfile := { s.systemProfile with stability :=
          { s.systemProfile.stability with uptime_sec :=
              if now - (s.lastUpdated.getD now) ≠ 0 then some (now - (s.lastUpdated.getD now))
              else s.systemProfile.stability.uptime_sec } }
      , prefs := { s.prefs with uninstallMetricsUptimeSec :=
          if now - (s.lastUpdated.getD now) > 0 then
            s.prefs.uninstallMetricsUptimeSec + (now - (s.lastUpdated.getD now))
          else s.prefs.uninstallMetricsUptimeSec }
      , lastUpdated := some now } := by
  simp only [realtimeUptimeStep, getIncrementalUptime, writeInt64Attribute, setStab]
  split_ifs <;> simp

theorem append_ite_singleton (c : Prop) [Decidable c] (a : List XmlEvent) (e : XmlEvent) :
    (if c then a ++ [e] else a) = a ++ (if c then [e] else []) := by
  split_ifs <;> simp

theorem snapshotOf_eq (b : Bool) (now : Int) (p : PrefState) (lu : Option Int) :
    snapshotOf b now p lu =
      { locked := false
      , xml :=
          [.intAttr "launchcount" p.stabilityLaunchCount
          , .intAttr "crashcount" p.stabilityCrashCount] ++
          ((if p.stabilityPageLoadCount ≠ 0 then
              [.intAttr "pageloadcount" p.stabilityPageLoadCount] else []) ++
           ((if p.stabilityRendererCrashCount ≠ 0 then
              [.intAttr "renderercrashcount" p.stabilityRendererCrashCount] else []) ++
            ((if p.stabilityExtensionRendererCrashCount ≠ 0 then
              [.intAttr "extensionrenderercrashcount" p.stabilityExtensionRendererCrashCount]
              else []) ++
             ((if p.stabilityRendererHangCount ≠ 0 then
              [.intAttr "rendererhangcount" p.stabilityRendererHangCount] else []) ++
              ((if p.stabilityChildProcessCrashCount ≠ 0 then
              [.intAttr "childprocesscrashcount" p.stabilityChildProcessCrashCount] else []) ++
               (if now - lu.getD now ≠ 0 then
              [.int64Attr "uptimesec" (now - lu.getD now)] else []))))))
      , systemProfile :=
        { stability :=
          { launch_count := some p.stabilityLaunchCount
          , crash_count := some p.stabilityCrashCount
          , page_load_count := if p.stabilityPageLoadCount ≠ 0 then
              some p.stabilityPageLoadCount else none
          , renderer_crash_count := if p.stabilityRendererCrashCount ≠ 0 then
              some p.stabilityRendererCrashCount else none
          , extension_renderer_crash_count := if p.stabilityExtensionRendererCrashCount ≠ 0 then
              some p.stabilityExtensionRendererCrashCount else none
          , renderer_hang_count := if p.stabilityRendererHangCount ≠ 0 then
              some p.stabilityRendererHangCount else none
          , child_process_crash_count := if p.stabilityChildProcessCrashCount ≠ 0 then
              some p.stabilityChildProcessCrashCount else none
          , other_user_crash_count := if b then
              (if p.stabilityOtherUserCrashCount ≠ 0 then
                some p.stabilityOtherUserCrashCount else none) else none
          , kernel_crash_count := if b then
              (if p.stabilityKernelCrashCount ≠ 0 then
                some p.stabilityKernelCrashCount else none) else none
          , unclean_system_shutdown_count := if b then
              (if p.stabilitySystemUncleanShutdownCount ≠ 0 then
                some p.stabilitySystemUncleanShutdownCount else none) else none
          , uptime_sec := if now - lu.getD now ≠ 0 then some (now - lu.getD now) else none } }
      , omniboxEvents := []
      , numEvents := 0
      , faults := 0
      , prefs :=
        { p with
          stabilityLaunchCount := 0
        , stabilityCrashCount := 0
        , stabilityPageLoadCount := if p.stabilityPageLoadCount ≠ 0 then 0
            else p.stabilityPageLoadCount
        , stabilityRendererCrashCount := if p.stabilityRendererCrashCount ≠ 0 then 0
            else p.stabilityRendererCrashCount
        , stabilityExtensionRendererCrashCount :=
            if p.stabilityExtensionRendererCrashCount ≠ 0 then 0
            else p.stabilityExtensionRendererCrashCount
        , stabilityRendererHangCount := if p.stabilityRendererHangCount ≠ 0 then 0
            else p.stabilityRendererHangCount
        , stabilityChildProcessCrashCount := if p.stabilityChildProcessCrashCount ≠ 0 then 0
            else p.stabilityChildProcessCrashCount
        , stabilityOtherUserCrashCount := if b then
            (if p.stabilityOtherUserCrashCount ≠ 0 then 0 else p.stabilityOtherUserCrashCount)
            else p.stabilityOtherUserCrashCount
        , stabilityKernelCrashCount := if b then
            (if p.stabilityKernelCrashCount ≠ 0 then 0 else p.stabilityKernelCrashCount)
            else p.stabilityKernelCrashCount
        , stabilitySystemUncleanShutdownCount := if b then
            (if p.stabilitySystemUncleanShutdownCount ≠ 0 then 0
             else p.stabilitySystemUncleanShutdownCount)
            else p.stabilitySystemUncleanShutdownCount
        , uninstallMetricsUptimeSec := if now - lu.getD now > 0 then
            p.uninstallMetricsUptimeSec + (now - lu.getD now)
            else p.uninstallMetricsUptimeSec }
      , lastUpdated := some now } := by
  cases b <;>
    simp [snapshotOf, stabilitySnapshot, writeRealtimeStabilityAttributes, initState,
      writeRequiredStabilityAttributes_eq, realtimePageLoadStep_eq, realtimeRendererCrashStep_eq,
      realtimeExtensionRendererCrashStep_eq, realtimeRendererHangStep_eq,
      realtimeChildProcessCrashStep_eq, realtimeOtherUserCrashStep_eq, realtimeKernelCrashStep_eq,
      realtimeUncleanShutdownStep_eq, realtimeUptimeStep_eq]

theorem xmlIntAttr_nil (n : String) : xmlIntAttr [] n = none := rfl

theorem xmlIntAttr_cons_open (m : String) (xs : List XmlEvent) (n : String) :
    xmlIntAttr (.openElement m :: xs) n = xmlIntAttr xs n := by
  simp [xmlIntAttr, List.findSome?]

theorem xmlIntAttr_cons_close (m : String) (xs : List XmlEvent) (n : String) :
    xmlIntAttr (.closeElement m :: xs) n = xmlIntAttr xs n := by
  simp [xmlIntAttr, List.findSome?]

theorem xmlIntAttr_cons_attr (m v : String) (xs : List XmlEvent) (n : String) :
    xmlIntAttr (.attr m v :: xs) n = xmlIntAttr xs n := by
  simp [xmlIntAttr, List.findSome?]

theorem xmlIntAttr_cons_int64 (m : String) (v : Int) (xs : List XmlEvent) (n : String) :
    xmlIntAttr (.int64Attr m v :: xs) n = xmlIntAttr xs n := by
  simp [xmlIntAttr, List.findSome?]

theorem xmlIntAttr_cons_int (m : String) (v : Int) (xs : List XmlEvent) (n : String) :
    xmlIntAttr (.intAttr m v :: xs) n = if m == n then some v else xmlIntAttr xs n := by
  by_cases h : m == n <;> simp [xmlIntAttr, List.findSome?, h]

theorem xmlInt64Attr_nil (n : String) : xmlInt64Attr [] n = none := rfl

theorem xmlInt64Attr_cons_open (m : String) (xs : List XmlEvent) (n : String) :
    xmlInt64Attr (.openElement m :: xs) n = xmlInt64Attr xs n := by
  simp [xmlInt64Attr, List.findSome?]

theorem xmlInt64Attr_cons_close (m : String) (xs : List XmlEvent) (n : String) :
    xmlInt64Attr (.closeElement m :: xs) n = xmlInt64Attr xs n := by
  simp [xmlInt64Attr, List.findSome?]

theorem xmlInt64Attr_cons_attr (m v : String) (xs : List XmlEvent) (n : String) :
    xmlInt64Attr (.attr m v :: xs) n = xmlInt64Attr xs n := by
  simp [xmlInt64Attr, List.findSome?]

theorem xmlInt64Attr_cons_int (m : String) (v : Int) (xs : List XmlEvent) (n : String) :
    xmlInt64Attr (.intAttr m v :: xs) n = xmlInt64Attr xs n := by
  simp [xmlInt64Attr, List.findSome?]

theorem xmlInt64Attr_cons_int64 (m : String) (v : Int) (xs : List XmlEvent) (n : String) :
    xmlInt64Attr (.int64Attr m v :: xs) n = if m == n then some v else xmlInt64Attr xs n := by
  by_cases h : m == n <;> simp [xmlInt64Attr, List.findSome?, h]

theorem xmlIntAttr_append (a c : List XmlEvent) (n : String) :
    xmlIntAttr (a ++ c) n = (xmlIntAttr a n).orElse fun _ => xmlIntAttr c n := by
  induction a with
  | nil => simp [xmlIntAttr_nil]
  | cons e xs ih =>
    cases e <;>
      simp [xmlIntAttr_cons_open, xmlIntAttr_cons_close, xmlIntAttr_cons_attr,
        xmlIntAttr_cons_int64, xmlIntAttr_cons_int, ih] <;>
      split_ifs <;> simp

theorem xmlIntAttr_ite (c : Prop) [Decidable c] (x y : List XmlEvent) (n : String) :
    xmlIntAttr (if c then x else y) n = if c then xmlIntAttr x n else xmlIntAttr y n :=
  apply_ite (fun l => xmlIntAttr l n) c x y

theorem xmlInt64Attr_append (a c : List XmlEvent) (n : String) :
    xmlInt64Attr (a ++ c) n = (xmlInt64Attr a n).orElse fun _ => xmlInt64Attr c n := by
  induction a with
  | nil => simp [xmlInt64Attr_nil]
  | cons e xs ih =>
    cases e <;>
      simp [xmlInt64Attr_cons_open, xmlInt64Attr_cons_close, xmlInt64Attr_cons_attr,
        xmlInt64Attr_cons_int64, xmlInt64Attr_cons_int, ih] <;>
      split_ifs <;> simp

theorem xmlInt64Attr_ite (c : Prop) [Decidable c] (x y : List XmlEvent) (n : String) :
    xmlInt64Attr (if c then x else y) n = if c then xmlInt64Attr x n else xmlInt64Attr y n :=
  apply_ite (fun l => xmlInt64Attr l n) c x y

/-! ### Claim theorems -/

/-- C2.  Zero-suppression law: in every stability snapshot (required
attributes followed by the realtime attributes, over any pref store,
checkpoint, time and platform), the required counters `launchcount` and
`crashcount` are written to both encodings even when zero, while each
realtime counter is written (to the legacy stream and to the structured
record) exactly when its pref value is non-zero; the platform-conditional
ChromeOS counters are written, on that platform only, exactly when
non-zero (and only to the structured record, which is where the source
writes them). -/
theorem zero_suppression_law (b : Bool) (now : Int) (p : PrefState) (lu : Option Int) :
    xmlIntAttr (snapshotOf b now p lu).xml "launchcount" = some p.stabilityLaunchCount ∧
    xmlIntAttr (snapshotOf b now p lu).xml "crashcount" = some p.stabilityCrashCount ∧
    (snapshotOf b now p lu).systemProfile.stability.launch_count = some p.stabilityLaunchCount ∧
    (snapshotOf b now p lu).systemProfile.stability.crash_count = some p.stabilityCrashCount ∧
    xmlIntAttr (snapshotOf b now p lu).xml "pageloadcount" =
      (if p.stabilityPageLoadCount ≠ 0 then some p.stabilityPageLoadCount else none) ∧
    xmlIntAttr (snapshotOf b now p lu).xml "renderercrashcount" =
      (if p.stabilityRendererCrashCount ≠ 0 then some p.stabilityRendererCrashCount else none) ∧
    xmlIntAttr (snapshotOf b now p lu).xml "extensionrenderercrashcount" =
      (if p.stabilityExtensionRendererCrashCount ≠ 0 then
        some p.stabilityExtensionRendererCrashCount else none) ∧
    xmlIntAttr (snapshotOf b now p lu).xml "rendererhangcount" =
      (if p.stabilityRendererHangCount ≠ 0 then some p.stabilityRendererHangCount else none) ∧
    xmlIntAttr (snapshotOf b now p lu).xml "childprocesscrashcount" =
      (if p.stabilityChildProcessCrashCount ≠ 0 then
        some p.stabilityChildProcessCrashCount else none) ∧
    (snapshotOf b now p lu).systemProfile.stability.page_load_count =
      (if p.stabilityPageLoadCount ≠ 0 then some p.stabilityPageLoadCount else none) ∧
    (snapshotOf b now p lu).systemProfile.stability.renderer_crash_count =
      (if p.stabilityRendererCrashCount ≠ 0 then some p.stabilityRendererCrashCount else none) ∧
    (snapshotOf b now p lu).systemProfile.stability.extension_renderer_crash_count =
      (if p.stabilityExtensionRendererCrashCount ≠ 0 then
        some p.stabilityExtensionRendererCrashCount else none) ∧
    (snapshotOf b now p lu).systemProfile.stability.renderer_hang_count =
      (if p.stabilityRendererHangCount ≠ 0 then some p.stabilityRendererHangCount else none) ∧
    (snapshotOf b now p lu).systemProfile.stability.child_process_crash_count =
      (if p.stabilityChildProcessCrashCount ≠ 0 then
        some p.stabilityChildProcessCrashCount else none) ∧
    (snapshotOf b now p lu).systemProfile.stability.other_user_crash_count =
      (if b then
        (if p.stabilityOtherUserCrashCount ≠ 0 then some p.stabilityOtherUserCrashCount else none)
       else none) ∧
    (snapshotOf b now p lu).systemProfile.stability.kernel_crash_count =
      (if b then
        (if p.stabilityKernelCrashCount ≠ 0 then some p.stabilityKernelCrashCount else none)
       else none) ∧
    (snapshotOf b now p lu).systemProfile.stability.unclean_system_shutdown_count =
      (if b then
        (if p.stabilitySystemUncleanShutdownCount ≠ 0 then
          some p.stabilitySystemUncleanShutdownCount else none)
       else none) := by
  simp only [snapshotOf_eq]
  simp [xmlIntAttr_append, xmlIntAttr_ite, xmlIntAttr_nil, xmlIntAttr_cons_open,
    xmlIntAttr_cons_close, xmlIntAttr_cons_attr, xmlIntAttr_cons_int64, xmlIntAttr_cons_int]

theorem ite_reset_zero (x : Int) : (if x ≠ 0 then (0 : Int) else x) = 0 := by
  split_ifs with h
  · rfl
  · omega

theorem ite_reset_zero_flip (x : Int) : (if x = 0 then x else (0 : Int)) = 0 := by
  split_ifs with h
  · exact h
  · rfl

/-- C1 counterexample.  The claim asserts that no fact appears in one
encoding but not the other.  Concrete refutation: a persisted plugin usage
record (`Bar`, 7 launches) with no matching inventory item.  The legacy
encoding receives its `launchcount` attribute (the element is written
before the inventory is consulted), while the structured encoding receives
no `PluginStability` entry at all, so the claimed equivalence instance —
"the launch-count fact is present in the legacy stream iff it is present in
the structured record" — is false at this input. -/
theorem dual_encoding_counterexample :
    ¬ (((writePluginStabilityElements [] none
          (initState { pluginStats := some [StatsValue.dict exampleRecordBar] } none)
        ).xml.any fun e => e == XmlEvent.intAttr "launchcount" 7) =
       ((writePluginStabilityElements [] none
          (initState { pluginStats := some [StatsValue.dict exampleRecordBar] } none)
        ).systemProfile.stability.plugin_stability.any fun e => e.launch_count == 7)) := by
  decide

/-- C1 amended.  Dual-encoding equivalence does hold for the stability
counter scalars of a snapshot on a non-ChromeOS build: for each of the
required counters, the realtime counters and the uptime value, the first
legacy attribute with the counter's name carries exactly the value of the
corresponding structured field (present in one iff present in the other).
The equivalence stops where the counterexample shows it must: ChromeOS
realtime counters are structured-only, and plugin stability records can be
legacy-only (unmatched) while their version/raw-name facts are
structured-only. -/
theorem dual_encoding_stability_equiv (now : Int) (p : PrefState) (lu : Option Int) :
    xmlIntAttr (snapshotOf false now p lu).xml "launchcount" =
      (snapshotOf false now p lu).systemProfile.stability.launch_count ∧
    xmlIntAttr (snapshotOf false now p lu).xml "crashcount" =
      (snapshotOf false now p lu).systemProfile.stability.crash_count ∧
    xmlIntAttr (snapshotOf false now p lu).xml "pageloadcount" =
      (snapshotOf false now p lu).systemProfile.stability.page_load_count ∧
    xmlIntAttr (snapshotOf false now p lu).xml "renderercrashcount" =
      (snapshotOf false now p lu).systemProfile.stability.renderer_crash_count ∧
    xmlIntAttr (snapshotOf false now p lu).xml "extensionrenderercrashcount" =
      (snapshotOf false now p lu).systemProfile.stability.extension_renderer_crash_count ∧
    xmlIntAttr (snapshotOf false now p lu).xml "rendererhangcount" =
      (snapshotOf false now p lu).systemProfile.stability.renderer_hang_count ∧
    xmlIntAttr (snapshotOf false now p lu).xml "childprocesscrashcount" =
      (snapshotOf false now p lu).systemProfile.stability.child_process_crash_count ∧
    xmlInt64Attr (snapshotOf false now p lu).xml "uptimesec" =
      (snapshotOf false now p lu).systemProfile.stability.uptime_sec := by
  simp only [snapshotOf_eq]
  simp [xmlIntAttr_append, xmlIntAttr_ite, xmlIntAttr_nil, xmlIntAttr_cons_open,
    xmlIntAttr_cons_close, xmlIntAttr_cons_attr, xmlIntAttr_cons_int64, xmlIntAttr_cons_int,
    xmlInt64Attr_append, xmlInt64Attr_ite, xmlInt64Attr_nil, xmlInt64Attr_cons_open,
    xmlInt64Attr_cons_close, xmlInt64Attr_cons_attr, xmlInt64Attr_cons_int64,
    xmlInt64Attr_cons_int]

/-- C3.  Read-and-reset with no double-count.  Report A's snapshot writes
exactly the accumulated pref values (`p` models the increments I1 applied
since the last report), and immediately afterwards the backing store holds
zero for every counter the snapshot consumed (on the build where it is
consumed).  If collaborators then apply increments `d` (modelling I2),
report B's snapshot reflects exactly `d` — no value of I1 is counted
twice. -/
theorem read_and_reset_no_double_count (b : Bool) (now1 now2 : Int) (p : PrefState)
    (lu : Option Int) (d : StabilityDeltas) :
    (snapshotOf b now1 p lu).systemProfile.stability.launch_count =
      some p.stabilityLaunchCount ∧
    (snapshotOf b now1 p lu).systemProfile.stability.crash_count =
      some p.stabilityCrashCount ∧
    (snapshotOf b now1 p lu).systemProfile.stability.page_load_count =
      (if p.stabilityPageLoadCount ≠ 0 then some p.stabilityPageLoadCount else none) ∧
    (snapshotOf b now1 p lu).systemProfile.stability.renderer_crash_count =
      (if p.stabilityRendererCrashCount ≠ 0 then some p.stabilityRendererCrashCount else none) ∧
    (snapshotOf b now1 p lu).systemProfile.stability.extension_renderer_crash_count =
      (if p.stabilityExtensionRendererCrashCount ≠ 0 then
        some p.stabilityExtensionRendererCrashCount else none) ∧
    (snapshotOf b now1 p lu).systemProfile.stability.renderer_hang_count =
      (if p.stabilityRendererHangCount ≠ 0 then some p.stabilityRendererHangCount else none) ∧
    (snapshotOf b now1 p lu).systemProfile.stability.child_process_crash_count =
      (if p.stabilityChildProcessCrashCount ≠ 0 then
        some p.stabilityChildProcessCrashCount else none) ∧
    (snapshotOf b now1 p lu).systemProfile.stability.other_user_crash_count =
      (if b then
        (if p.stabilityOtherUserCrashCount ≠ 0 then some p.stabilityOtherUserCrashCount else none)
       else none) ∧
    (snapshotOf b now1 p lu).systemProfile.stability.kernel_crash_count =
      (if b then
        (if p.stabilityKernelCrashCount ≠ 0 then some p.stabilityKernelCrashCount else none)
       else none) ∧
    (snapshotOf b now1 p lu).systemProfile.stability.unclean_system_shutdown_count =
      (if b then
        (if p.stabilitySystemUncleanShutdownCount ≠ 0 then
          some p.stabilitySystemUncleanShutdownCount else none)
       else none) ∧
    (snapshotOf b now1 p lu).prefs.stabilityLaunchCount = 0 ∧
    (snapshotOf b now1 p lu).prefs.stabilityCrashCount = 0 ∧
    (snapshotOf b now1 p lu).prefs.stabilityPageLoadCount = 0 ∧
    (snapshotOf b now1 p lu).prefs.stabilityRendererCrashCount = 0 ∧
    (snapshotOf b now1 p lu).prefs.stabilityExtensionRendererCrashCount = 0 ∧
    (snapshotOf b now1 p lu).prefs.stabilityRendererHangCount = 0 ∧
    (snapshotOf b now1 p lu).prefs.stabilityChildProcessCrashCount = 0 ∧
    (snapshotOf b now1 p lu).prefs.stabilityOtherUserCrashCount =
      (if b then 0 else p.stabilityOtherUserCrashCount) ∧
    (snapshotOf b now1 p lu).prefs.stabilityKernelCrashCount =
      (if b then 0 else p.stabilityKernelCrashCount) ∧
    (snapshotOf b now1 p lu).prefs.stabilitySystemUncleanShutdownCount =
      (if b then 0 else p.stabilitySystemUncleanShutdownCount) ∧
    (reportB b now1 now2 p lu d).systemProfile.stability.launch_count = some d.launch ∧
    (reportB b now1 now2 p lu d).systemProfile.stability.crash_count = some d.crash ∧
    (reportB b now1 now2 p lu d).systemProfile.stability.page_load_count =
      (if d.pageLoad ≠ 0 then some d.pageLoad else none) ∧
    (reportB b now1 now2 p lu d).systemProfile.stability.renderer_crash_count =
      (if d.rendererCrash ≠ 0 then some d.rendererCrash else none) ∧
    (reportB b now1 now2 p lu d).systemProfile.stability.extension_renderer_crash_count =
      (if d.extensionRendererCrash ≠ 0 then some d.extensionRendererCrash else none) ∧
    (reportB b now1 now2 p lu d).systemProfile.stability.renderer_hang_count =
      (if d.rendererHang ≠ 0 then some d.rendererHang else none) ∧
    (reportB b now1 now2 p lu d).systemProfile.stability.child_process_crash_count =
      (if d.childProcessCrash ≠ 0 then some d.childProcessCrash else none) ∧
    (reportB b now1 now2 p lu d).systemProfile.stability.other_user_crash_count =
      (if b then (if d.otherUserCrash ≠ 0 then some d.otherUserCrash else none) else none) ∧
    (reportB b now1 now2 p lu d).systemProfile.stability.kernel_crash_count =
      (if b then (if d.kernelCrash ≠ 0 then some d.kernelCrash else none) else none) ∧
    (reportB b now1 now2 p lu d).systemProfile.stability.unclean_system_shutdown_count =
      (if b then (if d.uncleanShutdown ≠ 0 then some d.uncleanShutdown else none) else none) := by
  cases b <;>
    simp [reportB, snapshotOf_eq, bumpStability, ite_reset_zero, ite_reset_zero_flip]

theorem createHash_ne (s : String) : createHash s ≠ s := by
  intro h
  have hl := congrArg String.length h
  rw [createHash, String.length_append] at hl
  have h4 : ("b64:" : String).length = 4 := rfl
  omega

theorem statsEntries_append (inv : List WebPluginInfo) (pp : PluginPrefsHandle)
    (a b : List StatsValue) :
    statsEntries inv pp (a ++ b) = statsEntries inv pp a ++ statsEntries inv pp b := by
  induction a with
  | nil => simp [statsEntries]
  | cons v vs ih =>
    cases v with
    | other => simp [statsEntries, ih]
    | dict d =>
      rcases h : statsEntry inv pp d with _ | e <;> simp [statsEntries, h, ih]

theorem statsFaults_append (inv : List WebPluginInfo) (a b : List StatsValue) :
    statsFaults inv (a ++ b) = statsFaults inv a + statsFaults inv b := by
  induction a with
  | nil => simp [statsFaults]
  | cons v vs ih =>
    cases v with
    | other => simp [statsFaults, ih]; omega
    | dict d => simp [statsFaults, ih]; omega

theorem statsXml_append (a b : List StatsValue) :
    statsXml (a ++ b) = statsXml a ++ statsXml b := by
  induction a with
  | nil => simp [statsXml]
  | cons v vs ih =>
    cases v with
    | other => simp [statsXml, ih]
    | dict d => simp [statsXml, ih]

theorem foldl_processStatsValue (inv : List WebPluginInfo) (pp : PluginPrefsHandle)
    (vs : List StatsValue) (s : LogState) :
    vs.foldl (processStatsValue inv pp) s =
      { s with
        xml := s.xml ++ statsXml vs
      , systemProfile := { s.systemProfile with stability :=
          { s.systemProfile.stability with plugin_stability :=
              s.systemProfile.stability.plugin_stability ++ statsEntries inv pp vs } }
      , faults := s.faults + statsFaults inv vs } := by
  induction vs generalizing s with
  | nil => simp [statsXml, statsEntries, statsFaults]
  | cons v vs ih =>
    cases v with
    | other =>
      simp only [List.foldl_cons, processStatsValue, ih, statsXml, statsEntries, statsFaults]
      simp
      omega
    | dict d =>
      rcases h : inv.find? (fun info => info.name == d.name) with _ | info <;>
        simp only [List.foldl_cons, processStatsValue, openScope, closeScope, writeAttribute,
          writeIntAttribute, setStab, h, ih, statsXml, statsEntries, statsFaults, statsEntry,
          Option.map_none, Option.map_some, Option.isSome] <;>
        simp <;>
        omega

theorem writePluginStabilityElements_none (inv : List WebPluginInfo) (pp : PluginPrefsHandle)
    (s : LogState) (h : s.prefs.pluginStats = none) :
    writePluginStabilityElements inv pp s = s := by
  unfold writePluginStabilityElements
  rw [h]

theorem writePluginStabilityElements_some (inv : List WebPluginInfo) (pp : PluginPrefsHandle)
    (s : LogState) (vs : List StatsValue) (h : s.prefs.pluginStats = some vs) :
    writePluginStabilityElements inv pp s =
      { s with
        xml := s.xml ++ (XmlEvent.openElement "plugins" ::
          (statsXml vs ++ [XmlEvent.closeElement "plugins"]))
      , systemProfile := { s.systemProfile with stability :=
          { s.systemProfile.stability with plugin_stability :=
              s.systemProfile.stability.plugin_stability ++ statsEntries inv pp vs } }
      , faults := s.faults + statsFaults inv vs
      , prefs := { s.prefs with pluginStats := none } } := by
  unfold writePluginStabilityElements
  rw [h]
  simp [openScope, closeScope, foldl_processStatsValue]

/-- C10.  When the persisted `kStabilityPluginStats` list pref is absent,
the plugin stability pass returns immediately: the state is completely
unchanged — no legacy output, no structured entries, no `plugins` scope, no
pref mutation, no recorded fault. -/
theorem plugin_stats_absent_noop (inv : List WebPluginInfo) (pp : PluginPrefsHandle)
    (s : LogState) (h : s.prefs.pluginStats = none) :
    writePluginStabilityElements inv pp s = s :=
  writePluginStabilityElements_none inv pp s h

theorem plugin_stats_absent_noop_witness :
    writePluginStabilityElements [examplePlugin] none (initState {} none) = initState {} none :=
  plugin_stats_absent_noop [examplePlugin] none (initState {} none) rfl

/-- C8.  After the plugin correlation pass runs on a present stats list,
the whole persisted pref is cleared (whatever the match outcomes were, so a
dropped record's counters are gone), and a subsequent pass over the
resulting state — with any inventory and plugin prefs — changes nothing:
the dropped counters can never appear in a later report. -/
theorem plugin_stats_cleared (inv inv2 : List WebPluginInfo) (pp pp2 : PluginPrefsHandle)
    (s : LogState) (vs : List StatsValue) (h : s.prefs.pluginStats = some vs) :
    (writePluginStabilityElements inv pp s).prefs = { s.prefs with pluginStats := none } ∧
    writePluginStabilityElements inv2 pp2 (writePluginStabilityElements inv pp s) =
      writePluginStabilityElements inv pp s := by
  have h2 := writePluginStabilityElements_some inv pp s vs h
  constructor
  · rw [h2]
  · exact writePluginStabilityElements_none inv2 pp2 _ (by rw [h2])

theorem plugin_stats_cleared_witness :
    (writePluginStabilityElements [examplePlugin] none
        (initState { pluginStats := some [StatsValue.dict exampleRecordBar] } none)).prefs =
      { ({ pluginStats := some [StatsValue.dict exampleRecordBar] } : PrefState) with
          pluginStats := none } ∧
    writePluginStabilityElements [] none
        (writePluginStabilityElements [examplePlugin] none
          (initState { pluginStats := some [StatsValue.dict exampleRecordBar] } none)) =
      writePluginStabilityElements [examplePlugin] none
        (initState { pluginStats := some [StatsValue.dict exampleRecordBar] } none) :=
  plugin_stats_cleared [examplePlugin] [] none none _ [StatsValue.dict exampleRecordBar] rfl

/-- C4.  Unmatched-record fault: a persisted usage record whose name
matches no inventory item contributes no structured `PluginStability`
entry, bumps the recorded fault count by exactly one, and does not stop the
pass — the records before and after it are processed normally (their
entries and fault counts are exactly those of the surrounding sublists),
and the pref is still cleared at the end. -/
theorem unmatched_record_fault (inv : List WebPluginInfo) (pp : PluginPrefsHandle)
    (s : LogState) (r : PluginUsageRecord) (pre post : List StatsValue)
    (hm : inv.find? (fun info => info.name == r.name) = none)
    (hs : s.prefs.pluginStats = some (pre ++ StatsValue.dict r :: post)) :
    (writePluginStabilityElements inv pp s).systemProfile.stability.plugin_stability =
      s.systemProfile.stability.plugin_stability ++
        (statsEntries inv pp pre ++ statsEntries inv pp post) ∧
    (writePluginStabilityElements inv pp s).faults =
      s.faults + (statsFaults inv pre + statsFaults inv post) + 1 ∧
    (writePluginStabilityElements inv pp s).prefs.pluginStats = none := by
  rw [writePluginStabilityElements_some inv pp s _ hs]
  refine ⟨?_, ?_, rfl⟩
  · have : statsEntries inv pp (StatsValue.dict r :: post) = statsEntries inv pp post := by
      simp [statsEntries, statsEntry, hm]
    simp [statsEntries_append, this]
  · have : statsFaults inv (StatsValue.dict r :: post) = 1 + statsFaults inv post := by
      simp [statsFaults, hm]
    rw [statsFaults_append, this]
    dsimp only
    omega

theorem unmatched_record_fault_witness :
    (writePluginStabilityElements [examplePlugin] none
        (initState examplePrefsThree none)).systemProfile.stability.plugin_stability =
      (initState examplePrefsThree none).systemProfile.stability.plugin_stability ++
        (statsEntries [examplePlugin] none [StatsValue.dict exampleRecordFoo] ++
         statsEntries [examplePlugin] none [StatsValue.dict exampleRecordFoo]) ∧
    (writePluginStabilityElements [examplePlugin] none
        (initState examplePrefsThree none)).faults =
      (initState examplePrefsThree none).faults +
        (statsFaults [examplePlugin] [StatsValue.dict exampleRecordFoo] +
         statsFaults [examplePlugin] [StatsValue.dict exampleRecordFoo]) + 1 ∧
    (writePluginStabilityElements [examplePlugin] none
        (initState examplePrefsThree none)).prefs.pluginStats = none :=
  unmatched_record_fault [examplePlugin] none _ exampleRecordBar
    [StatsValue.dict exampleRecordFoo] [StatsValue.dict exampleRecordFoo] rfl rfl

/-- C5 counterexample.  The claim demands that the emitted
`PluginStability` entry carry an anonymized token, not the literal raw
name.  Concrete refutation: with the spec's own scenario (record `Foo`
with 2 crashes, inventory item `Foo`/version `1.0`), the structured entry
produced by `SetPluginInfo` carries the literal raw name `"Foo"`; the
anonymized token appears only in the legacy element's `filename`
attribute. -/
theorem plugin_correlation_counterexample :
    ¬ (∀ e ∈ (writePluginStabilityElements [examplePlugin] none
          (initState examplePrefsFoo none)).systemProfile.stability.plugin_stability,
        e.plugin.name ≠ "Foo") := by
  decide

/-- C5 amended.  For a persisted record at any position of the stats list
whose name has an inventory match (first exact-name match wins), exactly
one structured entry is emitted for it, in its position: it carries the
record's launch/instance/crash counts, the matched item's version — and
the item's raw name (which equals the record's raw name), not an
anonymized token.  The anonymized token (deterministic, always different
from the raw name, hence in particular for non-empty input) appears only
in the record's legacy `pluginstability` element, as its `filename`
attribute; the record contributes no fault, and the surrounding records
are processed normally. -/
theorem plugin_correlation_amended (inv : List WebPluginInfo) (pp : PluginPrefsHandle)
    (s : LogState) (d : PluginUsageRecord) (info : WebPluginInfo)
    (pre post : List StatsValue)
    (hm : inv.find? (fun i => i.name == d.name) = some info)
    (hs : s.prefs.pluginStats = some (pre ++ StatsValue.dict d :: post)) :
    (writePluginStabilityElements inv pp s).systemProfile.stability.plugin_stability =
      s.systemProfile.stability.plugin_stability ++
        (statsEntries inv pp pre ++
          ({ plugin := setPluginInfo info pp
           , launch_count := d.launches
           , instance_count := d.instances
           , crash_count := d.crashes } :: statsEntries inv pp post)) ∧
    (setPluginInfo info pp).name = info.name ∧
    (setPluginInfo info pp).version = info.version ∧
    info.name = d.name ∧
    (writePluginStabilityElements inv pp s).xml =
      s.xml ++ (XmlEvent.openElement "plugins" ::
        (statsXml pre ++
          (XmlEvent.openElement "pluginstability" ::
            XmlEvent.attr "filename" (createHash d.name) ::
            XmlEvent.intAttr "launchcount" d.launches ::
            XmlEvent.intAttr "instancecount" d.instances ::
            XmlEvent.intAttr "crashcount" d.crashes ::
            XmlEvent.closeElement "pluginstability" ::
            (statsXml post ++ [XmlEvent.closeElement "plugins"])))) ∧
    (writePluginStabilityElements inv pp s).faults =
      s.faults + (statsFaults inv pre + statsFaults inv post) ∧
    (d.name ≠ "" → createHash d.name ≠ d.name) := by
  rw [writePluginStabilityElements_some inv pp s _ hs]
  have hname : info.name = d.name := by
    have hb := List.find?_some hm
    exact eq_of_beq hb
  refine ⟨?_, rfl, rfl, hname, ?_, ?_, fun _ => createHash_ne d.name⟩
  · have h1 : statsEntries inv pp (StatsValue.dict d :: post) =
        { plugin := setPluginInfo info pp
        , launch_count := d.launches
        , instance_count := d.instances
        , crash_count := d.crashes } :: statsEntries inv pp post := by
      simp [statsEntries, statsEntry, hm]
    simp [statsEntries_append, h1]
  · have h2 : statsXml (StatsValue.dict d :: post) =
        XmlEvent.openElement "pluginstability" ::
        XmlEvent.attr "filename" (createHash d.name) ::
        XmlEvent.intAttr "launchcount" d.launches ::
        XmlEvent.intAttr "instancecount" d.instances ::
        XmlEvent.intAttr "crashcount" d.crashes ::
        XmlEvent.closeElement "pluginstability" :: statsXml post := by
      simp [statsXml]
    simp [statsXml_append, h2]
  · have h3 : statsFaults inv (StatsValue.dict d :: post) = statsFaults inv post := by
      simp [statsFaults, hm]
    dsimp only
    rw [statsFaults_append, h3]

theorem plugin_correlation_amended_witness :
    (writePluginStabilityElements [examplePlugin] none
        (initState examplePrefsFour none)).systemProfile.stability.plugin_stability =
      (initState examplePrefsFour none).systemProfile.stability.plugin_stability ++
        (statsEntries [examplePlugin] none
            [StatsValue.dict exampleRecordFoo, StatsValue.dict exampleRecordBar] ++
          ({ plugin := setPluginInfo examplePlugin none
           , launch_count := exampleRecordFoo.launches
           , instance_count := exampleRecordFoo.instances
           , crash_count := exampleRecordFoo.crashes } ::
            statsEntries [examplePlugin] none [StatsValue.dict exampleRecordBar])) ∧
    (setPluginInfo examplePlugin none).name = examplePlugin.name ∧
    (setPluginInfo examplePlugin none).version = examplePlugin.version ∧
    examplePlugin.name = exampleRecordFoo.name ∧
    (writePluginStabilityElements [examplePlugin] none (initState examplePrefsFour none)).xml =
      (initState examplePrefsFour none).xml ++ (XmlEvent.openElement "plugins" ::
        (statsXml [StatsValue.dict exampleRecordFoo, StatsValue.dict exampleRecordBar] ++
          (XmlEvent.openElement "pluginstability" ::
            XmlEvent.attr "filename" (createHash exampleRecordFoo.name) ::
            XmlEvent.intAttr "launchcount" exampleRecordFoo.launches ::
            XmlEvent.intAttr "instancecount" exampleRecordFoo.instances ::
            XmlEvent.intAttr "crashcount" exampleRecordFoo.crashes ::
            XmlEvent.closeElement "pluginstability" ::
            (statsXml [StatsValue.dict exampleRecordBar] ++
              [XmlEvent.closeElement "plugins"])))) ∧
    (writePluginStabilityElements [examplePlugin] none
        (initState examplePrefsFour none)).faults =
      (initState examplePrefsFour none).faults +
        (statsFaults [examplePlugin]
            [StatsValue.dict exampleRecordFoo, StatsValue.dict exampleRecordBar] +
         statsFaults [examplePlugin] [StatsValue.dict exampleRecordBar]) ∧
    (exampleRecordFoo.name ≠ "" →
      createHash exampleRecordFoo.name ≠ exampleRecordFoo.name) :=
  plugin_correlation_amended [examplePlugin] none _ exampleRecordFoo examplePlugin
    [StatsValue.dict exampleRecordFoo, StatsValue.dict exampleRecordBar]
    [StatsValue.dict exampleRecordBar] rfl rfl

/-- C6.  Lock immutability: once the `locked` flag is set, every public
record operation fails fast with a ProgrammingFault (the `DCHECK(!locked())`
precondition), producing no new state at all — so both encodings, the event
sequence and the event counter remain exactly as they were at lock time. -/
theorem lock_immutability (inv : List WebPluginInfo) (pp : PluginPrefsHandle)
    (pm : Option (List (String × List (String × PrefValue)))) (facts : EnvFacts)
    (b : Bool) (now : Int) (log : AutocompleteLog) (s : LogState)
    (h : s.locked = true) :
    recordEnvironment inv pp pm facts b now s = .error .programmingFault ∧
    recordIncrementalStabilityElements inv pp b now s = .error .programmingFault ∧
    recordOmniboxOpenedURL log now s = .error .programmingFault := by
  refine ⟨?_, ?_, ?_⟩
  · unfold recordEnvironment
    rw [if_pos h]
  · unfold recordIncrementalStabilityElements
    rw [if_pos h]
  · unfold recordOmniboxOpenedURL
    rw [if_pos h]

theorem lock_immutability_witness :
    recordEnvironment [] none none {} false 0
        { initState {} none with locked := true } = .error .programmingFault ∧
    recordIncrementalStabilityElements [] none false 0
        { initState {} none with locked := true } = .error .programmingFault ∧
    recordOmniboxOpenedURL { text := "", inputType := .invalid } 0
        { initState {} none with locked := true } = .error .programmingFault :=
  lock_immutability [] none none {} false 0 { text := "", inputType := .invalid }
    { initState {} none with locked := true } rfl

/-- C7 counterexample.  The claim asserts that an unrecognized
profile-metric value type aborts the report build.  Concrete refutation:
with metrics `[("a", unknown-typed), ("b", 5)]`, the claim implies the
metric after the unrecognized one is never written; in fact its
`profileparam` element is written (so the build continued) while the
assertion is recorded as one fault. -/
theorem profile_metric_type_counterexample :
    ¬ (XmlEvent.attr "name" "b" ∉ (writeProfileMetrics "p"
        [("a", PrefValue.other), ("b", PrefValue.int 5)] (initState {} none)).xml) ∧
    (writeProfileMetrics "p" [("a", PrefValue.other), ("b", PrefValue.int 5)]
        (initState {} none)).faults = 1 := by
  decide

theorem writeProfileEntry_addFault (k : String) (v : PrefValue) (s : LogState) :
    writeProfileEntry k v (addFault s) = addFault (writeProfileEntry k v s) := by
  cases v <;>
    simp only [writeProfileEntry, addFault, openScope, closeScope, writeAttribute,
      writeIntAttribute] <;>
    split_ifs <;> rfl

theorem foldl_profileEntries_addFault (ms : List (String × PrefValue)) (s : LogState) :
    ms.foldl (fun st kv => writeProfileEntry kv.1 kv.2 st) (addFault s) =
      addFault (ms.foldl (fun st kv => writeProfileEntry kv.1 kv.2 st) s) := by
  induction ms generalizing s with
  | nil => rfl
  | cons kv ms ih => simp only [List.foldl_cons, writeProfileEntry_addFault, ih]

/-- C7 amended.  An unrecognized profile-metric value type is the
`NOTREACHED(); break;` arm of the switch: it records exactly one assertion
fault, the offending metric is skipped, and the build continues — the
result is precisely the result of processing the remaining metrics, plus
one fault (matching the spec's other sentence that unknown types are a
logged integrity fault, not a crash, rather than a build-aborting
ProgrammingFault). -/
theorem profile_metric_unknown_type_continues (idh k : String)
    (pre post : List (String × PrefValue)) (s : LogState) (hk : k ≠ "id") :
    writeProfileMetrics idh (pre ++ (k, PrefValue.other) :: post) s =
      addFault (writeProfileMetrics idh (pre ++ post) s) := by
  unfold writeProfileMetrics
  simp only [List.foldl_append, List.foldl_cons]
  have he : ∀ st : LogState, writeProfileEntry k PrefValue.other st = addFault st := by
    intro st
    simp [writeProfileEntry, addFault, hk]
  rw [he, foldl_profileEntries_addFault]
  rfl

theorem profile_metric_unknown_type_continues_witness :
    writeProfileMetrics "p" [("a", PrefValue.other), ("b", PrefValue.int 5)]
        (initState {} none) =
      addFault (writeProfileMetrics "p" [("b", PrefValue.int 5)] (initState {} none)) :=
  profile_metric_unknown_type_continues "p" "a" [] [("b", PrefValue.int 5)]
    (initState {} none) (by decide)

/-- C9.  `GetIncrementalUptime` side effects: on the first call in a
process (checkpoint not yet initialized) it returns zero and leaves the
pref store untouched; the checkpoint always moves to `now`; the
uninstall-metrics uptime pref grows by the elapsed seconds exactly when
that value is positive and is untouched otherwise; and no other pref field
is ever modified. -/
theorem incremental_uptime_effects (now : Int) (p : PrefState) (lu : Option Int) :
    (lu = none → (getIncrementalUptime now p lu).1 = 0 ∧
      (getIncrementalUptime now p lu).2.1 = p) ∧
    (getIncrementalUptime now p lu).2.2 = some now ∧
    ((getIncrementalUptime now p lu).1 > 0 → (getIncrementalUptime now p lu).2.1 =
      { p with uninstallMetricsUptimeSec :=
          p.uninstallMetricsUptimeSec + (getIncrementalUptime now p lu).1 }) ∧
    (¬ (getIncrementalUptime now p lu).1 > 0 → (getIncrementalUptime now p lu).2.1 = p) ∧
    (getIncrementalUptime now p lu).2.1.installDate = p.installDate ∧
    (getIncrementalUptime now p lu).2.1.stabilityLaunchCount = p.stabilityLaunchCount ∧
    (getIncrementalUptime now p lu).2.1.stabilityCrashCount = p.stabilityCrashCount ∧
    (getIncrementalUptime now p lu).2.1.stabilityPageLoadCount = p.stabilityPageLoadCount ∧
    (getIncrementalUptime now p lu).2.1.stabilityRendererCrashCount =
      p.stabilityRendererCrashCount ∧
    (getIncrementalUptime now p lu).2.1.stabilityExtensionRendererCrashCount =
      p.stabilityExtensionRendererCrashCount ∧
    (getIncrementalUptime now p lu).2.1.stabilityRendererHangCount =
      p.stabilityRendererHangCount ∧
    (getIncrementalUptime now p lu).2.1.stabilityChildProcessCrashCount =
      p.stabilityChildProcessCrashCount ∧
    (getIncrementalUptime now p lu).2.1.stabilityOtherUserCrashCount =
      p.stabilityOtherUserCrashCount ∧
    (getIncrementalUptime now p lu).2.1.stabilityKernelCrashCount =
      p.stabilityKernelCrashCount ∧
    (getIncrementalUptime now p lu).2.1.stabilitySystemUncleanShutdownCount =
      p.stabilitySystemUncleanShutdownCount ∧
    (getIncrementalUptime now p lu).2.1.stabilityIncompleteSessionEndCount =
      p.stabilityIncompleteSessionEndCount ∧
    (getIncrementalUptime now p lu).2.1.stabilityBreakpadRegistrationSuccess =
      p.stabilityBreakpadRegistrationSuccess ∧
    (getIncrementalUptime now p lu).2.1.stabilityBreakpadRegistrationFail =
      p.stabilityBreakpadRegistrationFail ∧
    (getIncrementalUptime now p lu).2.1.stabilityDebuggerPresent = p.stabilityDebuggerPresent ∧
    (getIncrementalUptime now p lu).2.1.stabilityDebuggerNotPresent =
      p.stabilityDebuggerNotPresent ∧
    (getIncrementalUptime now p lu).2.1.numBookmarksOnBookmarkBar =
      p.numBookmarksOnBookmarkBar ∧
    (getIncrementalUptime now p lu).2.1.numFoldersOnBookmarkBar = p.numFoldersOnBookmarkBar ∧
    (getIncrementalUptime now p lu).2.1.numBookmarksInOtherBookmarkFolder =
      p.numBookmarksInOtherBookmarkFolder ∧
    (getIncrementalUptime now p lu).2.1.numFoldersInOtherBookmarkFolder =
      p.numFoldersInOtherBookmarkFolder ∧
    (getIncrementalUptime now p lu).2.1.numKeywords = p.numKeywords ∧
    (getIncrementalUptime now p lu).2.1.pluginStats = p.pluginStats := by
  rcases lu with _ | t
  · simp [getIncrementalUptime]
  · simp only [getIncrementalUptime, Option.getD]
    split_ifs with h <;> simp_all

theorem incremental_uptime_effects_witness :
    (getIncrementalUptime 5 ({} : PrefState) none).1 = 0 ∧
    (getIncrementalUptime 5 ({} : PrefState) none).2.1 = ({} : PrefState) :=
  (incremental_uptime_effects 5 {} none).1 rfl
